import Mathlib

/-!
Verification of the numerical core of `src/hello.jsx` (MCDM optimization
dashboard).  The embedded components are:

* the AHP engine `computeAHPFromMatrix` (lines 53-75), modelled over `ℚ`
  (every arithmetic operation in the source is field arithmetic; the single
  unguarded division — the consistency index at `n = 1` — is modelled with
  `Option`, `none` standing for the non-finite JS artifact);
* the pairwise-matrix edit operation `updatePairwise` (lines 186-194);
* the improvement-percentage computation of the multi-objective strategy
  (lines 310-318);
* the constrained allocation heuristic `solveLPHeuristic` (lines 78-126),
  modelled over `ℝ` because the aggressive strategy computes
  `Math.pow(rank, 0.8)`, a real power;
* a NaN-propagating variant of the heuristic capturing the JS behaviour on
  length-mismatched inputs (out-of-range array reads give `undefined`, and
  arithmetic on `undefined` gives `NaN`).
-/

/- Part 1. Definitions: the shallow embedding of the source. -/

/-- JS `q || 1` for a number `q`: `0` is falsy and is replaced by `1`.
Used by the source for the column-sum, weight and total guards. -/
def jsOr1 (q : ℚ) : ℚ := if q = 0 then 1 else q

/-- Column sums: `colSums[j] = Σ_i matrix[i][j]` (lines 56-57).  The JS
code only reads `matrix[i][j]` for `i, j < matrix.length`; on square
matrices the `getD` default is never used. -/
def colSums (m : List (List ℚ)) : List ℚ :=
  (List.range m.length).map (fun j => (m.map (fun row => row.getD j 0)).sum)

/-- Column-sum normalization (line 59):
`norm = matrix.map(row => row.map((val, j) => val / (colSums[j] || 1)))`. -/
def normMatrix (m : List (List ℚ)) : List (List ℚ) :=
  let cs := colSums m
  m.map (fun row => row.mapIdx (fun j val => val / jsOr1 (cs.getD j 0)))

/-- Row averages of the normalized matrix (line 60), the local `weights`
of the source before the final re-normalization. -/
def rowAvgWeights (m : List (List ℚ)) : List ℚ :=
  (normMatrix m).map (fun row => row.sum / (m.length : ℚ))

/-- Per-row eigenvalue estimates (line 63):
`lambdaVec[i] = (row_i · weights) / (weights[i] || 1)`. -/
def lambdaVec (m : List (List ℚ)) : List ℚ :=
  let w := rowAvgWeights m
  m.mapIdx (fun i row =>
    (row.mapIdx (fun j val => val * w.getD j 0)).sum / jsOr1 (w.getD i 0))

/-- The random-index table (lines 66-67); JS `RI_table[n] ?? 1.24`. -/
def RItable (n : ℕ) : ℚ :=
  if n = 1 then 0 else if n = 2 then 0 else if n = 3 then 0.58
  else if n = 4 then 0.9 else if n = 5 then 1.12 else 1.24

/-- Result record of the AHP engine.  `CI` is `none` exactly when the JS
division `(lambdaMax - n) / (n - 1)` divides by zero (`n = 1`), in which
case JS yields a non-finite artifact (`NaN` or `±Infinity`). -/
structure AHPResult where
  weights : List ℚ
  lambdaMax : ℚ
  CI : Option ℚ
  CR : Option ℚ
deriving DecidableEq

/-- The AHP engine (lines 53-75).  Faithful to the source for nonempty
matrices: column sums, weight denominators and the weight total are all
guarded with `|| 1` in the source (`jsOr1` here); the only unguarded
division is `CI` at `n = 1`, modelled as `none`.  `CR = RI ? CI / RI : 0`
(line 68). -/
def computeAHPFromMatrix (m : List (List ℚ)) : AHPResult :=
  let n := m.length
  let w := rowAvgWeights m
  let lMax := (lambdaVec m).sum / (n : ℚ)
  let ci : Option ℚ := if n = 1 then none else some ((lMax - n) / ((n : ℚ) - 1))
  let ri := RItable n
  let cr : Option ℚ := if ri = 0 then some 0 else ci.map (fun c => c / ri)
  let total := jsOr1 w.sum
  { weights := w.map (fun x => x / total), lambdaMax := lMax, CI := ci, CR := cr }

/-- JS `parseFloat(value) || 1` (line 189): `NaN` (non-numeric input,
modelled as `none`) and a parse result of `0` are falsy and become `1`;
any other parsed number — including negative ones — is kept. -/
def jsParse (v : Option ℚ) : ℚ :=
  match v with
  | none => 1
  | some q => if q = 0 then 1 else q

/-- The matrix-edit operation (lines 186-194): `copy[i][j] = parsed`, and
when `i ≠ j` also `copy[j][i] = 1 / parsed`.  Note the source guards only
the reciprocal write with `i !== j`; the direct write happens for every
`(i, j)`, diagonal included. -/
def updatePairwise (M : List (List ℚ)) (i j : ℕ) (v : Option ℚ) :
    List (List ℚ) :=
  let parsed := jsParse v
  let M1 := M.set i ((M.getD i []).set j parsed)
  if i = j then M1 else M1.set j ((M1.getD j []).set i (1 / parsed))

/-- Entry access `M[i][j]`. -/
def entry (M : List (List ℚ)) (i j : ℕ) : ℚ := (M.getD i []).getD j 0

/-- The literal default pairwise matrix (line 41). -/
def DEFAULT_PAIRWISE : List (List ℚ) :=
  [[1, 0.2, 0.333], [5, 1, 5], [3, 0.2, 1]]

/-- Shape of the 3×3 pairwise matrix. -/
def Shape3 (M : List (List ℚ)) : Prop :=
  M.length = 3 ∧ ∀ row ∈ M, row.length = 3

/-- The invariant claimed for the pairwise matrix: 3×3 shape, unit
diagonal, and reciprocity `M[j][i] = 1 / M[i][j]` off the diagonal. -/
def PairwiseInv (M : List (List ℚ)) : Prop :=
  Shape3 M ∧ (∀ i, i < 3 → entry M i i = 1) ∧
    (∀ i, i < 3 → ∀ j, j < 3 → i ≠ j → entry M j i = 1 / entry M i j)

/-- Every pairwise entry is strictly positive. -/
def AllPos (M : List (List ℚ)) : Prop :=
  ∀ i, i < 3 → ∀ j, j < 3 → 0 < entry M i j

/-- Every pairwise entry is nonzero. -/
def AllNonzero (M : List (List ℚ)) : Prop :=
  ∀ i, i < 3 → ∀ j, j < 3 → entry M i j ≠ 0

/-- A sequence of edit operations applied in order. -/
def applyEdits (M : List (List ℚ)) (edits : List (ℕ × ℕ × Option ℚ)) :
    List (List ℚ) :=
  edits.foldl (fun acc e => updatePairwise acc e.1 e.2.1 e.2.2) M

instance decShape3 (M : List (List ℚ)) : Decidable (Shape3 M) :=
  inferInstanceAs (Decidable (M.length = 3 ∧ ∀ row ∈ M, row.length = 3))

instance decPairwiseInv (M : List (List ℚ)) : Decidable (PairwiseInv M) :=
  inferInstanceAs (Decidable (Shape3 M ∧ (∀ i, i < 3 → entry M i i = 1) ∧
    (∀ i, i < 3 → ∀ j, j < 3 → i ≠ j → entry M j i = 1 / entry M i j)))

instance decAllPos (M : List (List ℚ)) : Decidable (AllPos M) :=
  inferInstanceAs (Decidable (∀ i, i < 3 → ∀ j, j < 3 → 0 < entry M i j))

instance decAllNonzero (M : List (List ℚ)) : Decidable (AllNonzero M) :=
  inferInstanceAs (Decidable (∀ i, i < 3 → ∀ j, j < 3 → entry M i j ≠ 0))

/-- Two-decimal string formatting, modelling `Number.prototype.toFixed(2)`
(up to the binary-float tie behaviour of JS, irrelevant to the claims:
only the guarded zero-baseline branch is at issue). -/
def toFixed2 (q : ℚ) : String :=
  let n : ℤ := round (q * 100)
  let sgn := if n < 0 then "-" else ""
  let m := n.natAbs
  let frac := m % 100
  sgn ++ toString (m / 100) ++ "." ++
    (if frac < 10 then "0" else "") ++ toString frac

/-- Baseline objective totals (lines 311-313), e.g.
`baselineZ1 = orders.reduce((s, xi, i) => s + turnover[i] * xi, 0)`. -/
def baselineZ (series orders : List ℚ) : ℚ :=
  ((List.range orders.length).map
    (fun i => series.getD i 0 * orders.getD i 0)).sum

/-- The three improvement strings reported by the multi-objective run. -/
structure Improvements where
  turnover : String
  cost : String
  productivity : String

/-- The improvement percentages of the multi-objective strategy
(lines 314-318).  Each baseline total is tested for JS truthiness: a zero
baseline short-circuits to the literal string "0.00", otherwise the
percentage is formatted with `toFixed(2)`. -/
def multiObjectiveImprovements (turnover cost productivity orders : List ℚ)
    (actualTurnover actualCost actualProductivity : ℚ) : Improvements :=
  let baselineZ1 := baselineZ turnover orders
  let baselineZ2 := baselineZ cost orders
  let baselineZ3 := baselineZ productivity orders
  { turnover := if baselineZ1 = 0 then "0.00"
      else toFixed2 ((actualTurnover - baselineZ1 * 1000) /
        (baselineZ1 * 1000) * 100)
    cost := if baselineZ2 = 0 then "0.00"
      else toFixed2 ((baselineZ2 - actualCost) / baselineZ2 * 100)
    productivity := if baselineZ3 = 0 then "0.00"
      else toFixed2 ((actualProductivity - baselineZ3) / baselineZ3 * 100) }

/-- The three allocation styles dispatched on `options.strategy`; any
string other than aggressive and conservative reaches the balanced
branch of the source, so a closed three-case variant is faithful. -/
inductive Strat
  | aggressive
  | conservative
  | balanced

/-- The literal cumulative-capacity schedule (line 85). -/
def cumCapacity : List ℝ :=
  [2700000, 5200000, 7900000, 10700000, 13500000, 16200000,
   19000000, 22000000, 24800000, 27800000, 30600000, 32700000]

/-- JS `Math.round x = ⌊x + 1/2⌋` (also at negative arguments:
`Math.round(-0.5)` is `-0 = ⌊0⌋`). -/
noncomputable def jsRound (x : ℝ) : ℝ := ((⌊x + 1/2⌋ : ℤ) : ℝ)

/-- JS `Math.pow(rank, 0.8)` (line 99), a real power. -/
noncomputable def pow08 (r : ℝ) : ℝ := r ^ (0.8 : ℝ)

/-- The shared scale `maxAbs = Math.max(...coeffs.map(c => Math.abs(c)), 1)` (line 88). -/
noncomputable def maxAbsCoeffs (coeffs : List ℝ) : ℝ :=
  (coeffs.map (fun c => |c|)).foldr max 1

/-- One loop iteration of the heuristic (lines 90-121) on period data
`(c, lb, ub, cap?)` with running total `cumulative`.  `cap?` is the
month's entry of `cumCapacity` (`none` past index 11, where the JS
comparison with `undefined` is false and the ceiling clamp never fires).
Steps: normalized rank, strategy target, minimize inversion, cumulative
ceiling clamp, `[lb, ub]` clamp, rounding. -/
noncomputable def heurStep (strat : Strat) (maximize : Bool) (ma : ℝ)
    (c lb ub : ℝ) (cap? : Option ℝ) (cumulative : ℝ) : ℝ :=
  let rank := (c / ma + 1) / 2
  let x0 :=
    match strat with
    | Strat.aggressive => lb + (ub - lb) * pow08 rank
    | Strat.conservative => lb + (ub - lb) * 0.15
    | Strat.balanced => lb + (ub - lb) * (0.35 + 0.5 * rank)
  let x1 := if maximize then x0 else lb + (ub - lb) * (1 - rank)
  let x2 :=
    match cap? with
    | some cap => if cumulative + x1 > cap then max lb (cap - cumulative) else x1
    | none => x1
  jsRound (min ub (max lb x2))

/-- The per-period loop of the heuristic, threading the running total. -/
noncomputable def heurAux (strat : Strat) (maximize : Bool) (ma : ℝ) :
    List (ℝ × ℝ × ℝ × Option ℝ) → ℝ → List ℝ
  | [], _ => []
  | (c, lb, ub, cap?) :: rest, cumulative =>
    let xi := heurStep strat maximize ma c lb ub cap? cumulative
    xi :: heurAux strat maximize ma rest (cumulative + xi)

/-- The period rows `(coeffs[i], lower[i], upper[i], cumCapacity[i])` for
`i < coeffs.length`, the index range of the JS loop. -/
def heurRows (coeffs lower upper : List ℝ) :
    List (ℝ × ℝ × ℝ × Option ℝ) :=
  (List.range coeffs.length).map
    (fun i => (coeffs.getD i 0, lower.getD i 0, upper.getD i 0,
      cumCapacity.get? i))

/-- The allocation heuristic (lines 78-126): the solution vector paired
with the objective `solution.reduce((s, xi, idx) => s + coeffs[idx]*xi)`. -/
noncomputable def solveLPHeuristic (coeffs lower upper : List ℝ)
    (maximize : Bool) (strat : Strat) : List ℝ × ℝ :=
  let ma := maxAbsCoeffs coeffs
  let sol := heurAux strat maximize ma (heurRows coeffs lower upper) 0
  (sol, ((List.range coeffs.length).map
    (fun i => coeffs.getD i 0 * sol.getD i 0)).sum)

/-- An integer-valued real (orders/capacity data are integral). -/
def IsIntR (x : ℝ) : Prop := ∃ k : ℤ, x = (k : ℝ)

/-- Side conditions on the period rows, threading the previous month's
capacity: every month has a capacity entry, bounds and capacities are
integral, `lb ≤ ub`, the lower bound fits the capacity increment, and
capacities ascend. -/
def RowsOK : List (ℝ × ℝ × ℝ × Option ℝ) → ℝ → Prop
  | [], _ => True
  | (_, _, _, none) :: _, _ => False
  | (_, lb, ub, some cap) :: rest, prev =>
      IsIntR lb ∧ IsIntR ub ∧ IsIntR cap ∧ lb ≤ ub ∧
        lb ≤ cap - prev ∧ prev ≤ cap ∧ RowsOK rest cap

/-- The previous month's cumulative-capacity ceiling (0 before month 0). -/
def cumCapPrev (i : ℕ) : ℝ :=
  if i = 0 then 0 else cumCapacity.getD (i - 1) 0

/-- The per-period value of the heuristic when the cumulative ceiling
does not bind: strategy target clamped to `[lb, ub]` and rounded
(maximize mode). -/
noncomputable def heurStepFree (strat : Strat) (ma c lb ub : ℝ) : ℝ :=
  let rank := (c / ma + 1) / 2
  let x0 :=
    match strat with
    | Strat.aggressive => lb + (ub - lb) * pow08 rank
    | Strat.conservative => lb + (ub - lb) * 0.15
    | Strat.balanced => lb + (ub - lb) * (0.35 + 0.5 * rank)
  jsRound (min ub (max lb x0))

/-- Side conditions for a ceiling-free run: positive in-range
coefficients, ordered integral upper bounds, and prefix sums of the upper
bounds within the cumulative ceilings. -/
def SlackOK (ma : ℝ) : List (ℝ × ℝ × ℝ × Option ℝ) → ℝ → Prop
  | [], _ => True
  | (_, _, _, none) :: _, _ => False
  | (c, lb, ub, some cap) :: rest, s =>
      0 < c ∧ |c| ≤ ma ∧ lb ≤ ub ∧ IsIntR ub ∧ s + ub ≤ cap ∧
        SlackOK ma rest (s + ub)

/-- A JS numeric value: `none` models `NaN` (and an out-of-range array
read, whose `undefined` behaves as `NaN` under every arithmetic
operation, `Math.max`, `Math.min` and `Math.round` used here). -/
abbrev JSVal := Option ℝ

/-- A binary JS numeric operation: `NaN` absorbs. -/
def jsBin (f : ℝ → ℝ → ℝ) : JSVal → JSVal → JSVal
  | some a, some b => some (f a b)
  | _, _ => none

/-- One iteration of the heuristic loop under JS semantics when the
bounds reads may be out of range (`undefined`): mirrors `heurStep`, with
every comparison against `NaN` false (so the ceiling clamp is skipped
when the running total or the proposed value is `NaN`). -/
noncomputable def heurStepJS (strat : Strat) (maximize : Bool) (ma c : ℝ)
    (lb ub : JSVal) (cap? : Option ℝ) (cumulative : JSVal) : JSVal :=
  let rank := (c / ma + 1) / 2
  let frac : ℝ :=
    match strat with
    | Strat.aggressive => pow08 rank
    | Strat.conservative => 0.15
    | Strat.balanced => 0.35 + 0.5 * rank
  let x0 := jsBin (· + ·) lb (jsBin (· * ·) (jsBin (· - ·) ub lb)
    (some frac))
  let x1 := if maximize then x0
    else jsBin (· + ·) lb (jsBin (· * ·) (jsBin (· - ·) ub lb)
      (some (1 - rank)))
  let x2 :=
    match cap?, jsBin (· + ·) cumulative x1 with
    | some cap, some e =>
      if e > cap then jsBin max lb (jsBin (· - ·) (some cap) cumulative)
      else x1
    | _, _ => x1
  Option.map jsRound (jsBin min ub (jsBin max lb x2))

/-- The JS-semantics loop. -/
noncomputable def heurAuxJS (strat : Strat) (maximize : Bool) (ma : ℝ) :
    List (ℝ × JSVal × JSVal × Option ℝ) → JSVal → List JSVal
  | [], _ => []
  | (c, lb, ub, cap?) :: rest, cumulative =>
    let xi := heurStepJS strat maximize ma c lb ub cap? cumulative
    xi :: heurAuxJS strat maximize ma rest (jsBin (· + ·) cumulative xi)

/-- The heuristic under JS semantics: the loop runs over the indices of
`coeffs`; `lower[i]` and `upper[i]` are `undefined` (hence `NaN`-like)
when those arrays are shorter. -/
noncomputable def solveLPHeuristicJS (coeffs lower upper : List ℝ)
    (maximize : Bool) (strat : Strat) : List JSVal × JSVal :=
  let ma := maxAbsCoeffs coeffs
  let rows := (List.range coeffs.length).map
    (fun i => (coeffs.getD i 0, lower.get? i, upper.get? i,
      cumCapacity.get? i))
  let sol := heurAuxJS strat maximize ma rows (some 0)
  (sol, ((List.range coeffs.length).map
    (fun i => jsBin (· * ·) (some (coeffs.getD i 0))
      (sol.getD i none))).foldl (jsBin (· + ·)) (some 0))

/- Part 2. Lemmas and the claim theorems. -/

lemma getD_map_range {α : Type} (f : ℕ → α) (d : α) {j k : ℕ} (h : j < k) :
    (((List.range k).map f).getD j d) = f j := by
  rw [List.getD_eq_getElem?_getD]
  simp [List.getElem?_map, List.getElem?_range, h]

lemma sum_map_div (l : List ℚ) (t : ℚ) :
    (l.map (fun x => x / t)).sum = l.sum / t := by
  induction l with
  | nil => simp
  | cons a l ih => simp [ih, add_div]

lemma mapIdx_sum_nonneg (g : ℕ → ℚ → ℚ) :
    ∀ (l : List ℚ), (∀ j, j < l.length → 0 ≤ g j (l.getD j 0)) →
      0 ≤ (l.mapIdx g).sum := by
  intro l
  induction l generalizing g with
  | nil => intro _; simp
  | cons a t ih =>
    intro h
    rw [List.mapIdx_cons, List.sum_cons]
    have h0 : 0 ≤ g 0 a := by simpa using h 0 (by simp)
    have ht : 0 ≤ (t.mapIdx (fun i => g (i + 1))).sum := by
      apply ih
      intro j hj
      simpa using h (j + 1) (by simpa using Nat.succ_lt_succ hj)
    linarith

lemma mapIdx_sum_pos (g : ℕ → ℚ → ℚ) :
    ∀ (l : List ℚ), l ≠ [] → (∀ j, j < l.length → 0 < g j (l.getD j 0)) →
      0 < (l.mapIdx g).sum := by
  intro l
  induction l generalizing g with
  | nil => intro h; exact absurd rfl h
  | cons a t _ =>
    intro _ h
    rw [List.mapIdx_cons, List.sum_cons]
    have h0 : 0 < g 0 a := by simpa using h 0 (by simp)
    have ht : 0 ≤ (t.mapIdx (fun i => g (i + 1))).sum := by
      apply mapIdx_sum_nonneg
      intro j hj
      have := h (j + 1) (by simpa using Nat.succ_lt_succ hj)
      simpa using le_of_lt this
    linarith

lemma colSums_pos {m : List (List ℚ)} (hne : m ≠ [])
    (hsq : ∀ row ∈ m, row.length = m.length)
    (hpos : ∀ row ∈ m, ∀ x ∈ row, 0 < x) :
    ∀ j, j < m.length → 0 < (colSums m).getD j 0 := by
  intro j hj
  rw [colSums, getD_map_range _ _ hj]
  apply List.sum_pos
  · intro x hx
    rcases List.mem_map.mp hx with ⟨row, hrow, rfl⟩
    have hlen : j < row.length := by rw [hsq row hrow]; exact hj
    rw [List.getD_eq_getElem _ _ hlen]
    exact hpos row hrow _ (List.getElem_mem hlen)
  · simpa using hne

lemma rowAvgWeights_pos {m : List (List ℚ)} (hne : m ≠ [])
    (hsq : ∀ row ∈ m, row.length = m.length)
    (hpos : ∀ row ∈ m, ∀ x ∈ row, 0 < x) :
    ∀ w ∈ rowAvgWeights m, 0 < w := by
  intro w hw
  rw [rowAvgWeights] at hw
  rcases List.mem_map.mp hw with ⟨nr, hnr, rfl⟩
  rw [normMatrix] at hnr
  rcases List.mem_map.mp hnr with ⟨row, hrow, rfl⟩
  have hrlen : row.length = m.length := hsq row hrow
  have hrne : row ≠ [] := by
    intro h
    rw [h] at hrlen
    exact hne (List.length_eq_zero.mp hrlen.symm)
  have hnpos :
      0 < (row.mapIdx (fun j val => val / jsOr1 ((colSums m).getD j 0))).sum := by
    apply mapIdx_sum_pos _ _ hrne
    intro j hj
    have hjm : j < m.length := hrlen ▸ hj
    have hcs : 0 < (colSums m).getD j 0 := colSums_pos hne hsq hpos j hjm
    have hval : 0 < row.getD j 0 := by
      rw [List.getD_eq_getElem _ _ hj]
      exact hpos row hrow _ (List.getElem_mem hj)
    have : jsOr1 ((colSums m).getD j 0) = (colSums m).getD j 0 := by
      rw [jsOr1, if_neg (ne_of_gt hcs)]
    rw [this]
    exact div_pos hval hcs
  have hn : (0 : ℚ) < (m.length : ℚ) := by
    have : 0 < m.length := List.length_pos.mpr hne
    exact_mod_cast this
  exact div_pos hnpos hn

/-- Claim C2: for every nonempty square pairwise matrix of positive
rationals, the AHP weights are all non-negative and sum to exactly 1
(hence within any floating tolerance such as 1e-9): the row averages are
re-normalized by their total. -/
theorem C2_ahp_weights_nonneg_sum_one (m : List (List ℚ)) (hne : m ≠ [])
    (hsq : ∀ row ∈ m, row.length = m.length)
    (hpos : ∀ row ∈ m, ∀ x ∈ row, 0 < x) :
    (∀ w ∈ (computeAHPFromMatrix m).weights, 0 ≤ w) ∧
      (computeAHPFromMatrix m).weights.sum = 1 := by
  have hwpos := rowAvgWeights_pos hne hsq hpos
  have htotpos : 0 < (rowAvgWeights m).sum := by
    apply List.sum_pos _ hwpos
    intro h
    rw [rowAvgWeights, normMatrix] at h
    simp only [List.map_eq_nil_iff] at h
    exact hne h
  have htot : jsOr1 (rowAvgWeights m).sum = (rowAvgWeights m).sum := by
    rw [jsOr1, if_neg (ne_of_gt htotpos)]
  constructor
  · intro w hw
    rw [computeAHPFromMatrix] at hw
    simp only at hw
    rcases List.mem_map.mp hw with ⟨w0, hw0, rfl⟩
    rw [htot]
    exact le_of_lt (div_pos (hwpos w0 hw0) htotpos)
  · rw [computeAHPFromMatrix]
    simp only
    rw [htot, sum_map_div, div_self (ne_of_gt htotpos)]

/-- Witness for C2 at the concrete matrix `[[1]]`. -/
theorem C2_witness :
    (([[(1 : ℚ)]] : List (List ℚ)) ≠ [] ∧
      (∀ row ∈ [[(1 : ℚ)]], row.length = List.length [[(1 : ℚ)]]) ∧
      (∀ row ∈ [[(1 : ℚ)]], ∀ x ∈ row, 0 < x)) ∧
    ((∀ w ∈ (computeAHPFromMatrix [[(1 : ℚ)]]).weights, 0 ≤ w) ∧
      (computeAHPFromMatrix [[(1 : ℚ)]]).weights.sum = 1) :=
  ⟨⟨by decide, by decide, by decide⟩,
    C2_ahp_weights_nonneg_sum_one [[(1 : ℚ)]] (by decide) (by decide) (by decide)⟩

/-- Counterexample to claim C6: for the 1×1 matrix `[[1]]` the engine's
consistency index is the unguarded division-by-zero artifact (`none` in
this model, `NaN`/`Infinity` in JS), not the value 0: the source computes
`CI = (lambdaMax - n) / (n - 1)` with no `n = 1` guard. -/
theorem C6_counterexample :
    (computeAHPFromMatrix [[(1 : ℚ)]]).CI ≠ some 0 ∧
      (computeAHPFromMatrix [[(1 : ℚ)]]).CI = none := by
  constructor
  · decide
  · decide

/-- Claim C6 amended: for every 1×1 matrix the consistency index is the
division-by-zero artifact (modelled `none`), while the consistency ratio
`CR` is guarded (`RI = 0` for `n = 1`) and equals 0. -/
theorem C6_ci_artifact_cr_zero (a : ℚ) :
    (computeAHPFromMatrix [[a]]).CI = none ∧
      (computeAHPFromMatrix [[a]]).CR = some 0 := by
  constructor
  · rw [computeAHPFromMatrix]
    simp
  · rw [computeAHPFromMatrix]
    simp [RItable]

lemma jsParse_ne_zero (v : Option ℚ) : jsParse v ≠ 0 := by
  match v with
  | none => simp [jsParse]
  | some q =>
    by_cases h : q = 0 <;> simp [jsParse, h]

lemma getD_set_eq {α : Type} (a d : α) :
    ∀ (l : List α) (k : ℕ), k < l.length → (l.set k a).getD k d = a := by
  intro l
  induction l with
  | nil => intro k hk; simp at hk
  | cons x t ih =>
    intro k hk
    cases k with
    | zero => simp
    | succ n => simpa using ih n (by simpa using hk)

lemma getD_set_ne {α : Type} (a d : α) :
    ∀ (l : List α) (k n : ℕ), k ≠ n → (l.set k a).getD n d = l.getD n d := by
  intro l
  induction l with
  | nil => intro k n _; simp
  | cons x t ih =>
    intro k n hkn
    cases k with
    | zero =>
      cases n with
      | zero => exact absurd rfl hkn
      | succ m => simp
    | succ s =>
      cases n with
      | zero => simp
      | succ m => simpa using ih s m (fun h => hkn (by rw [h]))

lemma shape3_row {M : List (List ℚ)} (hM : Shape3 M) {i : ℕ} (hi : i < 3) :
    (M.getD i []).length = 3 := by
  have hlen : i < M.length := by rw [hM.1]; exact hi
  rw [List.getD_eq_getElem _ _ hlen]
  exact hM.2 _ (List.getElem_mem hlen)

/-- Entry of a single row replacement. -/
lemma entry_set (M : List (List ℚ)) (i : ℕ) (r : List ℚ)
    (hi : i < M.length) (a b : ℕ) :
    entry (M.set i r) a b = if a = i then r.getD b 0 else entry M a b := by
  rw [entry]
  by_cases hai : a = i
  · rw [if_pos hai, hai, getD_set_eq _ _ _ _ hi]
  · rw [if_neg hai, getD_set_ne _ _ _ _ _ (fun h => hai h.symm), entry]

/-- Entry of two successive row replacements. -/
lemma entry_set_set (M : List (List ℚ)) (i j : ℕ) (r1 r2 : List ℚ)
    (hi : i < M.length) (hj : j < M.length) (a b : ℕ) :
    entry ((M.set i r1).set j r2) a b =
      if a = j then r2.getD b 0
      else if a = i then r1.getD b 0 else entry M a b := by
  rw [entry_set (M.set i r1) j r2 (by rw [List.length_set]; exact hj) a b,
    entry_set M i r1 hi a b]

/-- Entry-level description of an off-diagonal edit. -/
lemma entry_updatePairwise_offdiag {M : List (List ℚ)} (hM : Shape3 M)
    {i j : ℕ} (hi : i < 3) (hj : j < 3) (hij : i ≠ j) (v : Option ℚ)
    (a b : ℕ) :
    entry (updatePairwise M i j v) a b =
      if a = j ∧ b = i then 1 / jsParse v
      else if a = i ∧ b = j then jsParse v
      else entry M a b := by
  have hilen : i < M.length := by rw [hM.1]; exact hi
  have hjlen : j < M.length := by rw [hM.1]; exact hj
  have hjrow : j < (M.getD i []).length := by rw [shape3_row hM hi]; exact hj
  have hirow : i < (M.getD j []).length := by rw [shape3_row hM hj]; exact hi
  simp only [updatePairwise, if_neg hij]
  rw [getD_set_ne ((M.getD i []).set j (jsParse v)) [] M i j hij]
  rw [entry_set_set M i j _ _ hilen hjlen a b]
  by_cases haj : a = j
  · rw [if_pos haj]
    by_cases hbi : b = i
    · rw [hbi, getD_set_eq _ _ _ _ hirow, if_pos ⟨haj, rfl⟩]
    · rw [getD_set_ne _ _ _ _ _ (fun h => hbi h.symm),
        if_neg (fun h : a = j ∧ b = i => hbi h.2),
        if_neg (fun h : a = i ∧ b = j => hij (h.1.symm.trans haj)),
        entry, haj]
  · rw [if_neg haj, if_neg (fun h : a = j ∧ b = i => haj h.1)]
    by_cases hai : a = i
    · rw [if_pos hai]
      by_cases hbj : b = j
      · rw [hbj, getD_set_eq _ _ _ _ hjrow, if_pos ⟨hai, rfl⟩]
      · rw [getD_set_ne _ _ _ _ _ (fun h => hbj h.symm),
          if_neg (fun h : a = i ∧ b = j => hbj h.2), entry, hai]
    · rw [if_neg hai, if_neg (fun h : a = i ∧ b = j => hai h.1)]

/-- Entry-level description of a diagonal edit: the parsed value is
written directly into `M[i][i]`; no other entry changes. -/
lemma entry_updatePairwise_diag {M : List (List ℚ)} (hM : Shape3 M)
    {i : ℕ} (hi : i < 3) (v : Option ℚ) (a b : ℕ) :
    entry (updatePairwise M i i v) a b =
      if a = i ∧ b = i then jsParse v else entry M a b := by
  have hilen : i < M.length := by rw [hM.1]; exact hi
  have hrow : i < (M.getD i []).length := by rw [shape3_row hM hi]; exact hi
  simp only [updatePairwise, eq_self_iff_true, if_true]
  rw [entry_set M i _ hilen a b]
  by_cases hai : a = i
  · rw [if_pos hai]
    by_cases hbi : b = i
    · rw [hbi, getD_set_eq _ _ _ _ hrow, if_pos ⟨hai, rfl⟩]
    · rw [getD_set_ne _ _ _ _ _ (fun h => hbi h.symm),
        if_neg (fun h : a = i ∧ b = i => hbi h.2), entry, hai]
  · rw [if_neg hai, if_neg (fun h : a = i ∧ b = i => hai h.1)]

lemma shape3_updatePairwise {M : List (List ℚ)} (hM : Shape3 M)
    {i j : ℕ} (hi : i < 3) (hj : j < 3) (v : Option ℚ) :
    Shape3 (updatePairwise M i j v) := by
  have hrowlen : ∀ (k n : ℕ) (q : ℚ), k < 3 →
      ((M.getD k []).set n q).length = 3 := by
    intro k n q hk
    rw [List.length_set, shape3_row hM hk]
  constructor
  · simp only [updatePairwise]
    by_cases h : i = j
    · simp only [if_pos h, List.length_set]
      exact hM.1
    · simp only [if_neg h, List.length_set]
      exact hM.1
  · intro row hrowmem
    simp only [updatePairwise] at hrowmem
    by_cases h : i = j
    · simp only [if_pos h] at hrowmem
      rcases List.mem_or_eq_of_mem_set hrowmem with hmem | rfl
      · exact hM.2 _ hmem
      · exact hrowlen i j _ hi
    · simp only [if_neg h] at hrowmem
      rcases List.mem_or_eq_of_mem_set hrowmem with hmem | rfl
      · rcases List.mem_or_eq_of_mem_set hmem with hmem2 | rfl
        · exact hM.2 _ hmem2
        · exact hrowlen i j _ hi
      · rw [List.length_set, getD_set_ne _ _ _ _ _ h, shape3_row hM hj]

/-- Counterexample to claim C5: a diagonal edit writes the parsed value
straight into the diagonal cell.  Editing entry `(0,0)` of the default
matrix to 5 leaves the diagonal entry at 5 ≠ 1, so edits can make a
diagonal entry differ from 1. -/
theorem C5_counterexample :
    entry (updatePairwise DEFAULT_PAIRWISE 0 0 (some 5)) 0 0 = 5 ∧
      entry (updatePairwise DEFAULT_PAIRWISE 0 0 (some 5)) 0 0 ≠ 1 := by
  have h : entry (updatePairwise DEFAULT_PAIRWISE 0 0 (some 5)) 0 0 = 5 := by
    norm_num [updatePairwise, DEFAULT_PAIRWISE, entry, jsParse]
  refine ⟨h, ?_⟩
  rw [h]
  norm_num

/-- Claim C5 amended: every OFF-diagonal edit preserves the pairwise
invariant (3×3 shape, unit diagonal, reciprocity): setting `(i,j)` to `v`
stores the parsed value and sets `(j,i)` to its reciprocal.  (A diagonal
edit, by contrast, can break the unit diagonal — see the counterexample.) -/
theorem C5_offdiag_edit_preserves_invariant (M : List (List ℚ))
    (i j : ℕ) (v : Option ℚ) (hM : PairwiseInv M) (hi : i < 3) (hj : j < 3)
    (hij : i ≠ j) :
    PairwiseInv (updatePairwise M i j v) ∧
      entry (updatePairwise M i j v) i j = jsParse v ∧
      entry (updatePairwise M i j v) j i = 1 / jsParse v := by
  obtain ⟨hshape, hdiag, hrecip⟩ := hM
  have hentry := entry_updatePairwise_offdiag hshape hi hj hij v
  refine ⟨⟨shape3_updatePairwise hshape hi hj v, ?_, ?_⟩, ?_, ?_⟩
  · intro a ha
    rw [hentry a a,
      if_neg (fun h : a = j ∧ a = i => hij (h.2.symm.trans h.1)),
      if_neg (fun h : a = i ∧ a = j => hij (h.1.symm.trans h.2))]
    exact hdiag a ha
  · intro a ha b hb hab
    rw [hentry b a, hentry a b]
    by_cases hc1 : a = i ∧ b = j
    · obtain ⟨ha1, hb1⟩ := hc1
      rw [if_pos ⟨hb1, ha1⟩,
        if_neg (fun h : a = j ∧ b = i => hij (ha1.symm.trans h.1)),
        if_pos ⟨ha1, hb1⟩]
    · by_cases hc2 : a = j ∧ b = i
      · obtain ⟨ha1, hb1⟩ := hc2
        rw [if_neg (fun h : b = j ∧ a = i => hij (hb1.symm.trans h.1)),
          if_pos ⟨hb1, ha1⟩, if_pos ⟨ha1, hb1⟩, one_div_one_div]
      · have hd1 : ¬(b = j ∧ a = i) := fun h => hc1 ⟨h.2, h.1⟩
        have hd2 : ¬(b = i ∧ a = j) := fun h => hc2 ⟨h.2, h.1⟩
        rw [if_neg hd1, if_neg hd2, if_neg hc2, if_neg hc1]
        exact hrecip a ha b hb hab
  · rw [hentry i j, if_neg (fun h : i = j ∧ j = i => hij h.1),
      if_pos ⟨rfl, rfl⟩]
  · rw [hentry j i, if_pos ⟨rfl, rfl⟩]

/-- Witness for C5: a perfectly reciprocal 3×3 matrix, editing entry
`(0,1)` to 2.  (The literal default matrix is not exactly reciprocal —
`0.333` only approximates `1/3` — so a cleanly reciprocal matrix is used
to instantiate the invariant hypothesis.) -/
theorem C5_witness :
    PairwiseInv [[1, 2, 4], [(1 : ℚ)/2, 1, 2], [1/4, 1/2, 1]] ∧
      (PairwiseInv
          (updatePairwise [[1, 2, 4], [(1 : ℚ)/2, 1, 2], [1/4, 1/2, 1]]
            0 1 (some 2)) ∧
        entry (updatePairwise [[1, 2, 4], [(1 : ℚ)/2, 1, 2], [1/4, 1/2, 1]]
            0 1 (some 2)) 0 1 = jsParse (some 2) ∧
        entry (updatePairwise [[1, 2, 4], [(1 : ℚ)/2, 1, 2], [1/4, 1/2, 1]]
            0 1 (some 2)) 1 0 = 1 / jsParse (some 2)) := by
  have hInv : PairwiseInv [[1, 2, 4], [(1 : ℚ)/2, 1, 2], [1/4, 1/2, 1]] := by
    refine ⟨⟨rfl, ?_⟩, ?_, ?_⟩
    · intro row hrow
      fin_cases hrow <;> rfl
    · intro i hi
      interval_cases i <;> norm_num [entry]
    · intro i hi j hj hij
      interval_cases i <;> interval_cases j <;>
        first
          | exact absurd rfl hij
          | norm_num [entry]
  exact ⟨hInv,
    C5_offdiag_edit_preserves_invariant _ 0 1 (some 2) hInv
      (by norm_num) (by norm_num) (by norm_num)⟩

/-- Counterexample to claim C10: an edit whose value parses to the
negative number -3 is stored as -3, so entries do not remain strictly
positive after arbitrary edit sequences from the default matrix. -/
theorem C10_counterexample :
    entry (applyEdits DEFAULT_PAIRWISE [(0, 1, some (-3))]) 0 1 = -3 ∧
      ¬ AllPos (applyEdits DEFAULT_PAIRWISE [(0, 1, some (-3))]) := by
  have h : entry (applyEdits DEFAULT_PAIRWISE [(0, 1, some (-3))]) 0 1 = -3 := by
    norm_num [applyEdits, updatePairwise, DEFAULT_PAIRWISE, entry, jsParse]
  refine ⟨h, fun hall => ?_⟩
  have hcell := hall 0 (by norm_num) 1 (by norm_num)
  rw [h] at hcell
  norm_num at hcell

lemma allNonzero_updatePairwise {M : List (List ℚ)} (hsh : Shape3 M)
    (hnz : AllNonzero M) {i j : ℕ} (hi : i < 3) (hj : j < 3) (v : Option ℚ) :
    Shape3 (updatePairwise M i j v) ∧ AllNonzero (updatePairwise M i j v) := by
  refine ⟨shape3_updatePairwise hsh hi hj v, ?_⟩
  intro a ha b hb
  rcases eq_or_ne i j with rfl | hij
  · rw [entry_updatePairwise_diag hsh hi v a b]
    by_cases hc : a = i ∧ b = i
    · rw [if_pos hc]; exact jsParse_ne_zero v
    · rw [if_neg hc]; exact hnz a ha b hb
  · rw [entry_updatePairwise_offdiag hsh hi hj hij v a b]
    by_cases hc1 : a = j ∧ b = i
    · rw [if_pos hc1]
      exact one_div_ne_zero (jsParse_ne_zero v)
    · rw [if_neg hc1]
      by_cases hc2 : a = i ∧ b = j
      · rw [if_pos hc2]; exact jsParse_ne_zero v
      · rw [if_neg hc2]; exact hnz a ha b hb

lemma allPos_updatePairwise {M : List (List ℚ)} (hsh : Shape3 M)
    (hpos : AllPos M) {i j : ℕ} (hi : i < 3) (hj : j < 3) {v : Option ℚ}
    (hv : 0 < jsParse v) :
    Shape3 (updatePairwise M i j v) ∧ AllPos (updatePairwise M i j v) := by
  refine ⟨shape3_updatePairwise hsh hi hj v, ?_⟩
  intro a ha b hb
  rcases eq_or_ne i j with rfl | hij
  · rw [entry_updatePairwise_diag hsh hi v a b]
    by_cases hc : a = i ∧ b = i
    · rw [if_pos hc]; exact hv
    · rw [if_neg hc]; exact hpos a ha b hb
  · rw [entry_updatePairwise_offdiag hsh hi hj hij v a b]
    by_cases hc1 : a = j ∧ b = i
    · rw [if_pos hc1]
      exact one_div_pos.mpr hv
    · rw [if_neg hc1]
      by_cases hc2 : a = i ∧ b = j
      · rw [if_pos hc2]; exact hv
      · rw [if_neg hc2]; exact hpos a ha b hb

lemma applyEdits_nonzero :
    ∀ (edits : List (ℕ × ℕ × Option ℚ)) (M : List (List ℚ)),
      Shape3 M → AllNonzero M → (∀ e ∈ edits, e.1 < 3 ∧ e.2.1 < 3) →
      Shape3 (applyEdits M edits) ∧ AllNonzero (applyEdits M edits) := by
  intro edits
  induction edits with
  | nil => intro M h1 h2 _; exact ⟨h1, h2⟩
  | cons e rest ih =>
    intro M h1 h2 hidx
    have he := hidx e (by simp)
    have step := allNonzero_updatePairwise h1 h2 he.1 he.2 e.2.2
    have hfold : applyEdits M (e :: rest) =
        applyEdits (updatePairwise M e.1 e.2.1 e.2.2) rest := by
      rw [applyEdits, applyEdits, List.foldl_cons]
    rw [hfold]
    exact ih _ step.1 step.2 (fun a ha => hidx a (List.mem_cons_of_mem _ ha))

lemma applyEdits_pos :
    ∀ (edits : List (ℕ × ℕ × Option ℚ)) (M : List (List ℚ)),
      Shape3 M → AllPos M → (∀ e ∈ edits, e.1 < 3 ∧ e.2.1 < 3) →
      (∀ e ∈ edits, 0 < jsParse e.2.2) →
      Shape3 (applyEdits M edits) ∧ AllPos (applyEdits M edits) := by
  intro edits
  induction edits with
  | nil => intro M h1 h2 _ _; exact ⟨h1, h2⟩
  | cons e rest ih =>
    intro M h1 h2 hidx hp
    have he := hidx e (by simp)
    have step := allPos_updatePairwise h1 h2 he.1 he.2 (hp e (by simp))
    have hfold : applyEdits M (e :: rest) =
        applyEdits (updatePairwise M e.1 e.2.1 e.2.2) rest := by
      rw [applyEdits, applyEdits, List.foldl_cons]
    rw [hfold]
    exact ih _ step.1 step.2 (fun a ha => hidx a (List.mem_cons_of_mem _ ha))
      (fun a ha => hp a (List.mem_cons_of_mem _ ha))

/-- Claim C10 amended: a value parsing to 0 or non-numeric is stored as 1
(with reciprocal cell 1); the stored parsed value is never 0, so the
reciprocal computation `1 / parsed` never divides by zero, and after any
sequence of in-range edits from the default matrix every entry remains
NONZERO.  Strict positivity — the original claim — additionally holds
whenever every edit's value parses to a positive number (or is 0 or
non-numeric); it fails for negative inputs (see the counterexample). -/
theorem C10_edit_values_safe (edits : List (ℕ × ℕ × Option ℚ))
    (hidx : ∀ e ∈ edits, e.1 < 3 ∧ e.2.1 < 3) :
    (∀ v : Option ℚ, jsParse v ≠ 0) ∧
      jsParse none = 1 ∧ jsParse (some 0) = 1 ∧
      AllNonzero (applyEdits DEFAULT_PAIRWISE edits) ∧
      ((∀ e ∈ edits, 0 < jsParse e.2.2) →
        AllPos (applyEdits DEFAULT_PAIRWISE edits)) := by
  have hsh : Shape3 DEFAULT_PAIRWISE := by
    refine ⟨rfl, ?_⟩
    intro row hrow
    fin_cases hrow <;> rfl
  have hnz : AllNonzero DEFAULT_PAIRWISE := by
    intro i hi j hj
    interval_cases i <;> interval_cases j <;> norm_num [entry, DEFAULT_PAIRWISE]
  have hpos : AllPos DEFAULT_PAIRWISE := by
    intro i hi j hj
    interval_cases i <;> interval_cases j <;> norm_num [entry, DEFAULT_PAIRWISE]
  refine ⟨jsParse_ne_zero, rfl, by norm_num [jsParse], ?_, ?_⟩
  · exact (applyEdits_nonzero edits DEFAULT_PAIRWISE hsh hnz hidx).2
  · intro hp
    exact (applyEdits_pos edits DEFAULT_PAIRWISE hsh hpos hidx hp).2

/-- Claim C8: in the multi-objective strategy, each of the three reported
improvement percentages is exactly the string "0.00" whenever the
corresponding baseline total (orders dotted with the metric series) is
zero, for any actual metric values. -/
theorem C8_zero_baseline_improvements
    (turnover cost productivity orders : List ℚ) (aT aC aP : ℚ) :
    (baselineZ turnover orders = 0 →
      (multiObjectiveImprovements turnover cost productivity orders
        aT aC aP).turnover = "0.00") ∧
    (baselineZ cost orders = 0 →
      (multiObjectiveImprovements turnover cost productivity orders
        aT aC aP).cost = "0.00") ∧
    (baselineZ productivity orders = 0 →
      (multiObjectiveImprovements turnover cost productivity orders
        aT aC aP).productivity = "0.00") := by
  refine ⟨fun h => ?_, fun h => ?_, fun h => ?_⟩ <;>
    simp [multiObjectiveImprovements, h]

/-- Witness for C8 with empty data (all three baselines are 0). -/
theorem C8_witness :
    baselineZ ([] : List ℚ) ([] : List ℚ) = 0 ∧
      (multiObjectiveImprovements [] [] [] [] 5 7 9).turnover = "0.00" ∧
      (multiObjectiveImprovements [] [] [] [] 5 7 9).cost = "0.00" ∧
      (multiObjectiveImprovements [] [] [] [] 5 7 9).productivity = "0.00" := by
  have h0 : baselineZ ([] : List ℚ) ([] : List ℚ) = 0 := by simp [baselineZ]
  exact ⟨h0, (C8_zero_baseline_improvements [] [] [] [] 5 7 9).1 h0,
    (C8_zero_baseline_improvements [] [] [] [] 5 7 9).2.1 h0,
    (C8_zero_baseline_improvements [] [] [] [] 5 7 9).2.2 h0⟩

/-- Witness for C10 with the single edit `(0,1) ← 2`. -/
theorem C10_witness :
    (∀ e ∈ [((0 : ℕ), (1 : ℕ), some (2 : ℚ))], e.1 < 3 ∧ e.2.1 < 3) ∧
      ((∀ v : Option ℚ, jsParse v ≠ 0) ∧
        jsParse none = 1 ∧ jsParse (some 0) = 1 ∧
        AllNonzero (applyEdits DEFAULT_PAIRWISE [((0 : ℕ), (1 : ℕ), some (2 : ℚ))]) ∧
        ((∀ e ∈ [((0 : ℕ), (1 : ℕ), some (2 : ℚ))], 0 < jsParse e.2.2) →
          AllPos (applyEdits DEFAULT_PAIRWISE [((0 : ℕ), (1 : ℕ), some (2 : ℚ))]))) :=
  ⟨by decide,
    C10_edit_values_safe [((0 : ℕ), (1 : ℕ), some (2 : ℚ))] (by decide)⟩

/-- Claim C4: with `maximize = false` the pre-clamp target of every
period is `lb + (ub - lb) * (1 - rank)` whatever the strategy (the
minimize inversion overwrites the strategy-specific formula), and
consequently all three strategies produce identical allocations and
identical objective values. -/
theorem C4_minimize_overrides_strategy :
    (∀ (s : Strat) (ma c lb ub cumulative : ℝ) (cap? : Option ℝ),
      heurStep s false ma c lb ub cap? cumulative =
        (let rank := (c / ma + 1) / 2
         let t := lb + (ub - lb) * (1 - rank)
         let x2 :=
           match cap? with
           | some cap =>
             if cumulative + t > cap then max lb (cap - cumulative) else t
           | none => t
         jsRound (min ub (max lb x2)))) ∧
    (∀ (coeffs lower upper : List ℝ) (s1 s2 : Strat),
      solveLPHeuristic coeffs lower upper false s1 =
        solveLPHeuristic coeffs lower upper false s2) := by
  have hstep : ∀ (s1 s2 : Strat) (ma c lb ub cum : ℝ) (cap? : Option ℝ),
      heurStep s1 false ma c lb ub cap? cum =
        heurStep s2 false ma c lb ub cap? cum := by
    intro s1 s2 ma c lb ub cum cap?
    cases s1 <;> cases s2 <;> simp [heurStep]
  constructor
  · intro s ma c lb ub cum cap?
    cases s <;> simp [heurStep]
  · intro coeffs lower upper s1 s2
    have haux : ∀ (rows : List (ℝ × ℝ × ℝ × Option ℝ)) (cum : ℝ),
        heurAux s1 false (maxAbsCoeffs coeffs) rows cum =
          heurAux s2 false (maxAbsCoeffs coeffs) rows cum := by
      intro rows
      induction rows with
      | nil => intro cum; rfl
      | cons r rest ih =>
        intro cum
        obtain ⟨c, lb, ub, cap?⟩ := r
        simp only [heurAux]
        rw [hstep s1 s2, ih]
    rw [solveLPHeuristic, solveLPHeuristic]
    simp only [haux]

lemma heurStep_inverted_bounds (strat : Strat) (maximize : Bool)
    (ma c lb ub : ℝ) (cap? : Option ℝ) (cum : ℝ) (h : ub < lb) :
    heurStep strat maximize ma c lb ub cap? cum = jsRound ub := by
  have key : ∀ t : ℝ, min ub (max lb t) = ub := fun t =>
    min_eq_left (le_trans (le_of_lt h) (le_max_left lb t))
  simp only [heurStep]
  rw [key]

lemma heurAux_getD_inverted (strat : Strat) (maximize : Bool) (ma : ℝ) :
    ∀ (rows : List (ℝ × ℝ × ℝ × Option ℝ)) (cum : ℝ) (k : ℕ)
      (c lb ub : ℝ) (cap? : Option ℝ),
      rows.get? k = some (c, lb, ub, cap?) → ub < lb →
      (heurAux strat maximize ma rows cum).getD k 0 = jsRound ub := by
  intro rows
  induction rows with
  | nil => intro cum k c lb ub cap? h _; simp at h
  | cons r rest ih =>
    intro cum k c lb ub cap? hget hlt
    obtain ⟨c0, lb0, ub0, cap0⟩ := r
    cases k with
    | zero =>
      have hr : c0 = c ∧ lb0 = lb ∧ ub0 = ub ∧ cap0 = cap? := by
        simpa using hget
      obtain ⟨rfl, rfl, rfl, rfl⟩ := hr
      simp only [heurAux, List.getD_cons_zero]
      exact heurStep_inverted_bounds _ _ _ _ _ _ _ _ hlt
    | succ n =>
      simp only [List.get?_cons_succ] at hget
      simp only [heurAux, List.getD_cons_succ]
      exact ih _ n c lb ub cap? hget hlt

/-- Claim C9: whenever a period has inverted bounds `upper < lower`, the
final clamp `min(ub, max(lb, x))` collapses to `ub`, so the allocation
for that period is `round(upper)` for every strategy, either value of
`maximize`, and any cumulative-ceiling state. -/
theorem C9_inverted_bounds_upper_wins (coeffs lower upper : List ℝ)
    (maximize : Bool) (strat : Strat) (i : ℕ)
    (hic : i < coeffs.length) (hil : i < lower.length)
    (hiu : i < upper.length)
    (hinv : upper.getD i 0 < lower.getD i 0) :
    ((solveLPHeuristic coeffs lower upper maximize strat).1).getD i 0 =
      jsRound (upper.getD i 0) := by
  rw [solveLPHeuristic]
  simp only
  apply heurAux_getD_inverted strat maximize (maxAbsCoeffs coeffs)
    (heurRows coeffs lower upper) 0 i (coeffs.getD i 0) (lower.getD i 0)
    (upper.getD i 0) (cumCapacity.get? i) _ hinv
  rw [heurRows, List.get?_map, List.get?_range hic]
  rfl

/-- Witness for C9: one period with bounds `lower = 5 > upper = 3`. -/
theorem C9_witness :
    (0 < ([(0 : ℝ)] : List ℝ).length ∧
      ([(3 : ℝ)] : List ℝ).getD 0 0 < ([(5 : ℝ)] : List ℝ).getD 0 0) ∧
    ((solveLPHeuristic [(0 : ℝ)] [(5 : ℝ)] [(3 : ℝ)]
        true Strat.balanced).1).getD 0 0 =
      jsRound (([(3 : ℝ)] : List ℝ).getD 0 0) :=
  ⟨⟨by norm_num, by norm_num [List.getD_cons_zero]⟩,
    C9_inverted_bounds_upper_wins [(0 : ℝ)] [(5 : ℝ)] [(3 : ℝ)]
      true Strat.balanced 0 (by norm_num) (by norm_num) (by norm_num)
      (by norm_num [List.getD_cons_zero])⟩

lemma isIntR_jsRound (x : ℝ) : IsIntR (jsRound x) := ⟨⌊x + 1/2⌋, rfl⟩

lemma isIntR_add {x y : ℝ} (hx : IsIntR x) (hy : IsIntR y) :
    IsIntR (x + y) := by
  obtain ⟨a, rfl⟩ := hx
  obtain ⟨b, rfl⟩ := hy
  exact ⟨a + b, by push_cast; ring⟩

lemma isIntR_sub {x y : ℝ} (hx : IsIntR x) (hy : IsIntR y) :
    IsIntR (x - y) := by
  obtain ⟨a, rfl⟩ := hx
  obtain ⟨b, rfl⟩ := hy
  exact ⟨a - b, by push_cast; ring⟩

lemma jsRound_int {x : ℝ} (hx : IsIntR x) : jsRound x = x := by
  obtain ⟨k, rfl⟩ := hx
  rw [jsRound, Int.floor_int_add]
  have hhalf : ⌊(1/2 : ℝ)⌋ = 0 := by
    rw [Int.floor_eq_iff] <;> norm_num
  rw [hhalf, add_zero]

lemma jsRound_mono {x y : ℝ} (h : x ≤ y) : jsRound x ≤ jsRound y := by
  rw [jsRound, jsRound]
  exact_mod_cast Int.floor_le_floor (by linarith)

lemma jsRound_le_add_half (x : ℝ) : jsRound x ≤ x + 1/2 := by
  rw [jsRound]
  exact Int.floor_le _

lemma int_le_of_le_add_half {a b : ℝ} (ha : IsIntR a) (hb : IsIntR b)
    (h : a ≤ b + 1/2) : a ≤ b := by
  obtain ⟨p, rfl⟩ := ha
  obtain ⟨q, rfl⟩ := hb
  have hpq : p ≤ q := by
    by_contra hpq
    push_neg at hpq
    have : (q : ℝ) + 1 ≤ p := by exact_mod_cast hpq
    linarith
  exact_mod_cast hpq

/-- The final `[lb, ub]` clamp plus rounding stays within integer bounds. -/
lemma clamp_round_bounds {lb ub : ℝ} (hlb : IsIntR lb) (hub : IsIntR ub)
    (hlu : lb ≤ ub) (t : ℝ) :
    lb ≤ jsRound (min ub (max lb t)) ∧ jsRound (min ub (max lb t)) ≤ ub := by
  have h1 : lb ≤ min ub (max lb t) := le_min hlu (le_max_left _ _)
  have h2 : min ub (max lb t) ≤ ub := min_le_left _ _
  constructor
  · calc lb = jsRound lb := (jsRound_int hlb).symm
      _ ≤ jsRound (min ub (max lb t)) := jsRound_mono h1
  · calc jsRound (min ub (max lb t)) ≤ jsRound ub := jsRound_mono h2
      _ = ub := jsRound_int hub

/-- Under integral data, the ceiling clamp keeps the running total within
the month's capacity, provided the month's lower bound fits in the
capacity increment `cap - prev` and the previous total is at most `prev`. -/
lemma cum_ceiling_le {lb ub cap cum prev : ℝ} (hcum : IsIntR cum)
    (hle : cum ≤ prev) (hlb : IsIntR lb) (hub : IsIntR ub) (hcap : IsIntR cap)
    (hlu : lb ≤ ub) (hfit : lb ≤ cap - prev) (t : ℝ) :
    cum + jsRound (min ub (max lb
      (if cum + t > cap then max lb (cap - cum) else t))) ≤ cap := by
  by_cases htrig : cum + t > cap
  · rw [if_pos htrig]
    by_cases hlc : lb ≤ cap - cum
    · rw [max_eq_right hlc, max_eq_right hlc]
      have hint : IsIntR (cap - cum) := isIntR_sub hcap hcum
      have hmin : jsRound (min ub (cap - cum)) ≤ cap - cum :=
        le_of_le_of_eq (jsRound_mono (min_le_right _ _)) (jsRound_int hint)
      linarith
    · push_neg at hlc
      rw [max_eq_left (le_of_lt hlc), max_self, min_eq_right hlu,
        jsRound_int hlb]
      linarith
  · rw [if_neg htrig]
    push_neg at htrig
    by_cases hlt2 : lb ≤ t
    · rw [max_eq_right hlt2]
      have hy1 : jsRound (min ub t) ≤ t + 1/2 := by
        have := jsRound_le_add_half (min ub t)
        have := min_le_right ub t
        linarith
      exact int_le_of_le_add_half (isIntR_add hcum (isIntR_jsRound _)) hcap
        (by linarith)
    · push_neg at hlt2
      rw [max_eq_left (le_of_lt hlt2), min_eq_right hlu, jsRound_int hlb]
      linarith

lemma heurStep_bounds (strat : Strat) (maximize : Bool) (ma c : ℝ)
    {lb ub : ℝ} (cap? : Option ℝ) (cum : ℝ)
    (hlb : IsIntR lb) (hub : IsIntR ub) (hlu : lb ≤ ub) :
    lb ≤ heurStep strat maximize ma c lb ub cap? cum ∧
      heurStep strat maximize ma c lb ub cap? cum ≤ ub := by
  simp only [heurStep]
  exact clamp_round_bounds hlb hub hlu _

lemma isIntR_heurStep (strat : Strat) (maximize : Bool)
    (ma c lb ub : ℝ) (cap? : Option ℝ) (cum : ℝ) :
    IsIntR (heurStep strat maximize ma c lb ub cap? cum) := by
  simp only [heurStep]
  exact isIntR_jsRound _

lemma heurStep_cum_le (strat : Strat) (maximize : Bool) (ma c : ℝ)
    {lb ub cap cum prev : ℝ} (hcum : IsIntR cum) (hle : cum ≤ prev)
    (hlb : IsIntR lb) (hub : IsIntR ub) (hcap : IsIntR cap)
    (hlu : lb ≤ ub) (hfit : lb ≤ cap - prev) :
    cum + heurStep strat maximize ma c lb ub (some cap) cum ≤ cap := by
  simp only [heurStep]
  exact cum_ceiling_le hcum hle hlb hub hcap hlu hfit _

/-- Main invariant of the heuristic loop: under `RowsOK`, every output
value lies within its period's bounds, and every running prefix total
stays at or below the period's cumulative capacity. -/
lemma heurAux_bounds_and_cum (strat : Strat) (maximize : Bool) (ma : ℝ) :
    ∀ (rows : List (ℝ × ℝ × ℝ × Option ℝ)) (cum prev : ℝ),
      IsIntR cum → cum ≤ prev → RowsOK rows prev →
      (∀ (k : ℕ) (c lb ub : ℝ) (cap? : Option ℝ),
          rows.get? k = some (c, lb, ub, cap?) →
          lb ≤ (heurAux strat maximize ma rows cum).getD k 0 ∧
            (heurAux strat maximize ma rows cum).getD k 0 ≤ ub) ∧
      (∀ (k : ℕ) (c lb ub cap : ℝ),
          rows.get? k = some (c, lb, ub, some cap) →
          cum + ((heurAux strat maximize ma rows cum).take (k + 1)).sum ≤
            cap) := by
  intro rows
  induction rows with
  | nil =>
    intro cum prev _ _ _
    constructor
    · intro k c lb ub cap? h; simp at h
    · intro k c lb ub cap h; simp at h
  | cons r rest ih =>
    intro cum prev hcum hle hOK
    obtain ⟨c0, lb0, ub0, cap0?⟩ := r
    cases cap0? with
    | none => exact absurd hOK (by simp [RowsOK])
    | some cap0 =>
      simp only [RowsOK] at hOK
      obtain ⟨hlb0, hub0, hcap0, hlu0, hfit0, hprev0, hrest⟩ := hOK
      have hy := heurStep_bounds strat maximize ma c0 (some cap0) cum
        hlb0 hub0 hlu0
      have hcum2le : cum + heurStep strat maximize ma c0 lb0 ub0
          (some cap0) cum ≤ cap0 :=
        heurStep_cum_le strat maximize ma c0 hcum hle hlb0 hub0 hcap0
          hlu0 hfit0
      have hcum2 : IsIntR (cum + heurStep strat maximize ma c0 lb0 ub0
          (some cap0) cum) :=
        isIntR_add hcum (isIntR_heurStep strat maximize ma c0 lb0 ub0
          (some cap0) cum)
      have IH := ih (cum + heurStep strat maximize ma c0 lb0 ub0
        (some cap0) cum) cap0 hcum2 hcum2le hrest
      constructor
      · intro k c lb ub cap? hget
        cases k with
        | zero =>
          have hr : c0 = c ∧ lb0 = lb ∧ ub0 = ub ∧ some cap0 = cap? := by
            simpa using hget
          obtain ⟨rfl, rfl, rfl, rfl⟩ := hr
          simp only [heurAux, List.getD_cons_zero]
          exact hy
        | succ n =>
          simp only [List.get?_cons_succ] at hget
          simp only [heurAux, List.getD_cons_succ]
          exact IH.1 n c lb ub cap? hget
      · intro k c lb ub cap hget
        cases k with
        | zero =>
          have hr : c0 = c ∧ lb0 = lb ∧ ub0 = ub ∧ cap0 = cap := by
            simpa using hget
          obtain ⟨rfl, rfl, rfl, rfl⟩ := hr
          simp only [heurAux, List.take_succ_cons, List.take_zero,
            List.sum_cons, List.sum_nil]
          linarith
        | succ n =>
          simp only [List.get?_cons_succ] at hget
          simp only [heurAux, List.take_succ_cons, List.sum_cons]
          have htail := IH.2 n c lb ub cap hget
          linarith

lemma cumCapacity_int : ∀ x ∈ cumCapacity, IsIntR x := by
  intro x hx
  simp only [cumCapacity, List.mem_cons, List.not_mem_nil, or_false] at hx
  rcases hx with rfl | rfl | rfl | rfl | rfl | rfl | rfl | rfl | rfl | rfl | rfl | rfl
  · exact ⟨2700000, by norm_num⟩
  · exact ⟨5200000, by norm_num⟩
  · exact ⟨7900000, by norm_num⟩
  · exact ⟨10700000, by norm_num⟩
  · exact ⟨13500000, by norm_num⟩
  · exact ⟨16200000, by norm_num⟩
  · exact ⟨19000000, by norm_num⟩
  · exact ⟨22000000, by norm_num⟩
  · exact ⟨24800000, by norm_num⟩
  · exact ⟨27800000, by norm_num⟩
  · exact ⟨30600000, by norm_num⟩
  · exact ⟨32700000, by norm_num⟩

/-- Claim C1 amended: for a 12-period input whose bounds are integral
with `lower ≤ upper`, and whose monthly lower bounds each fit within the
month's cumulative-capacity increment, the heuristic's allocation lies in
`[lower_i, upper_i]` for every period and every running prefix total
stays at or below the month's fixed ceiling.  (Both added hypotheses are
necessary: see the counterexample, where fractional bounds break the
bound invariant and an oversized lower bound breaks the ceiling.) -/
theorem C1_bounds_and_ceiling (coeffs lower upper : List ℝ)
    (maximize : Bool) (strat : Strat)
    (hc : coeffs.length = 12) (hl : lower.length = 12)
    (hu : upper.length = 12)
    (hlu : ∀ i, i < 12 → lower.getD i 0 ≤ upper.getD i 0)
    (hlint : ∀ i, i < 12 → IsIntR (lower.getD i 0))
    (huint : ∀ i, i < 12 → IsIntR (upper.getD i 0))
    (hfit : ∀ i, i < 12 →
      lower.getD i 0 + cumCapPrev i ≤ cumCapacity.getD i 0) :
    ∀ i, i < 12 →
      lower.getD i 0 ≤
        ((solveLPHeuristic coeffs lower upper maximize strat).1).getD i 0 ∧
      ((solveLPHeuristic coeffs lower upper maximize strat).1).getD i 0 ≤
        upper.getD i 0 ∧
      (((solveLPHeuristic coeffs lower upper maximize strat).1).take
          (i + 1)).sum ≤ cumCapacity.getD i 0 := by
  have hfit0 : lower.getD 0 0 ≤ 2700000 - 0 := by
    have h := hfit 0 (by norm_num)
    have e1 : cumCapPrev 0 = 0 := by norm_num [cumCapPrev]
    have e2 : cumCapacity.getD 0 0 = 2700000 := by norm_num [cumCapacity]
    rw [e1, e2] at h
    linarith
  have hfit1 : lower.getD 1 0 ≤ 5200000 - 2700000 := by
    have h := hfit 1 (by norm_num)
    have e1 : cumCapPrev 1 = 2700000 := by norm_num [cumCapPrev, cumCapacity]
    have e2 : cumCapacity.getD 1 0 = 5200000 := by norm_num [cumCapacity]
    rw [e1, e2] at h
    linarith
  have hfit2 : lower.getD 2 0 ≤ 7900000 - 5200000 := by
    have h := hfit 2 (by norm_num)
    have e1 : cumCapPrev 2 = 5200000 := by norm_num [cumCapPrev, cumCapacity]
    have e2 : cumCapacity.getD 2 0 = 7900000 := by norm_num [cumCapacity]
    rw [e1, e2] at h
    linarith
  have hfit3 : lower.getD 3 0 ≤ 10700000 - 7900000 := by
    have h := hfit 3 (by norm_num)
    have e1 : cumCapPrev 3 = 7900000 := by norm_num [cumCapPrev, cumCapacity]
    have e2 : cumCapacity.getD 3 0 = 10700000 := by norm_num [cumCapacity]
    rw [e1, e2] at h
    linarith
  have hfit4 : lower.getD 4 0 ≤ 13500000 - 10700000 := by
    have h := hfit 4 (by norm_num)
    have e1 : cumCapPrev 4 = 10700000 := by norm_num [cumCapPrev, cumCapacity]
    have e2 : cumCapacity.getD 4 0 = 13500000 := by norm_num [cumCapacity]
    rw [e1, e2] at h
    linarith
  have hfit5 : lower.getD 5 0 ≤ 16200000 - 13500000 := by
    have h := hfit 5 (by norm_num)
    have e1 : cumCapPrev 5 = 13500000 := by norm_num [cumCapPrev, cumCapacity]
    have e2 : cumCapacity.getD 5 0 = 16200000 := by norm_num [cumCapacity]
    rw [e1, e2] at h
    linarith
  have hfit6 : lower.getD 6 0 ≤ 19000000 - 16200000 := by
    have h := hfit 6 (by norm_num)
    have e1 : cumCapPrev 6 = 16200000 := by norm_num [cumCapPrev, cumCapacity]
    have e2 : cumCapacity.getD 6 0 = 19000000 := by norm_num [cumCapacity]
    rw [e1, e2] at h
    linarith
  have hfit7 : lower.getD 7 0 ≤ 22000000 - 19000000 := by
    have h := hfit 7 (by norm_num)
    have e1 : cumCapPrev 7 = 19000000 := by norm_num [cumCapPrev, cumCapacity]
    have e2 : cumCapacity.getD 7 0 = 22000000 := by norm_num [cumCapacity]
    rw [e1, e2] at h
    linarith
  have hfit8 : lower.getD 8 0 ≤ 24800000 - 22000000 := by
    have h := hfit 8 (by norm_num)
    have e1 : cumCapPrev 8 = 22000000 := by norm_num [cumCapPrev, cumCapacity]
    have e2 : cumCapacity.getD 8 0 = 24800000 := by norm_num [cumCapacity]
    rw [e1, e2] at h
    linarith
  have hfit9 : lower.getD 9 0 ≤ 27800000 - 24800000 := by
    have h := hfit 9 (by norm_num)
    have e1 : cumCapPrev 9 = 24800000 := by norm_num [cumCapPrev, cumCapacity]
    have e2 : cumCapacity.getD 9 0 = 27800000 := by norm_num [cumCapacity]
    rw [e1, e2] at h
    linarith
  have hfit10 : lower.getD 10 0 ≤ 30600000 - 27800000 := by
    have h := hfit 10 (by norm_num)
    have e1 : cumCapPrev 10 = 27800000 := by norm_num [cumCapPrev, cumCapacity]
    have e2 : cumCapacity.getD 10 0 = 30600000 := by norm_num [cumCapacity]
    rw [e1, e2] at h
    linarith
  have hfit11 : lower.getD 11 0 ≤ 32700000 - 30600000 := by
    have h := hfit 11 (by norm_num)
    have e1 : cumCapPrev 11 = 30600000 := by norm_num [cumCapPrev, cumCapacity]
    have e2 : cumCapacity.getD 11 0 = 32700000 := by norm_num [cumCapacity]
    rw [e1, e2] at h
    linarith
  have hexp : heurRows coeffs lower upper =
      [(coeffs.getD 0 0, lower.getD 0 0, upper.getD 0 0,
          some (2700000 : ℝ)),
        (coeffs.getD 1 0, lower.getD 1 0, upper.getD 1 0,
          some (5200000 : ℝ)),
        (coeffs.getD 2 0, lower.getD 2 0, upper.getD 2 0,
          some (7900000 : ℝ)),
        (coeffs.getD 3 0, lower.getD 3 0, upper.getD 3 0,
          some (10700000 : ℝ)),
        (coeffs.getD 4 0, lower.getD 4 0, upper.getD 4 0,
          some (13500000 : ℝ)),
        (coeffs.getD 5 0, lower.getD 5 0, upper.getD 5 0,
          some (16200000 : ℝ)),
        (coeffs.getD 6 0, lower.getD 6 0, upper.getD 6 0,
          some (19000000 : ℝ)),
        (coeffs.getD 7 0, lower.getD 7 0, upper.getD 7 0,
          some (22000000 : ℝ)),
        (coeffs.getD 8 0, lower.getD 8 0, upper.getD 8 0,
          some (24800000 : ℝ)),
        (coeffs.getD 9 0, lower.getD 9 0, upper.getD 9 0,
          some (27800000 : ℝ)),
        (coeffs.getD 10 0, lower.getD 10 0, upper.getD 10 0,
          some (30600000 : ℝ)),
        (coeffs.getD 11 0, lower.getD 11 0, upper.getD 11 0,
          some (32700000 : ℝ))] := by
    rw [heurRows, hc]
    rfl
  have hOK : RowsOK (heurRows coeffs lower upper) 0 := by
    rw [hexp]
    simp only [RowsOK]
    repeat' apply And.intro
    all_goals
      first
        | exact hlint _ (by norm_num)
        | exact huint _ (by norm_num)
        | exact hlu _ (by norm_num)
        | exact cumCapacity_int _ (by norm_num [cumCapacity])
        | exact hfit0
        | exact hfit1
        | exact hfit2
        | exact hfit3
        | exact hfit4
        | exact hfit5
        | exact hfit6
        | exact hfit7
        | exact hfit8
        | exact hfit9
        | exact hfit10
        | exact hfit11
        | norm_num
  have hmain := heurAux_bounds_and_cum strat maximize (maxAbsCoeffs coeffs)
    (heurRows coeffs lower upper) 0 0 ⟨0, by norm_num⟩ le_rfl hOK
  intro i hi
  have hget : (heurRows coeffs lower upper).get? i =
      some (coeffs.getD i 0, lower.getD i 0, upper.getD i 0,
        some (cumCapacity.getD i 0)) := by
    rw [heurRows, List.get?_map, List.get?_range (by rw [hc]; exact hi)]
    have hlen : i < cumCapacity.length := by
      rw [show cumCapacity.length = 12 from rfl]
      exact hi
    rw [Option.map_some', List.get?_eq_getElem?,
      List.getElem?_eq_getElem hlen, List.getD_eq_getElem _ _ hlen]
  have hbounds := hmain.1 i (coeffs.getD i 0) (lower.getD i 0)
    (upper.getD i 0) (some (cumCapacity.getD i 0)) hget
  have hcum := hmain.2 i (coeffs.getD i 0) (lower.getD i 0)
    (upper.getD i 0) (cumCapacity.getD i 0) hget
  rw [zero_add] at hcum
  simp only [solveLPHeuristic]
  exact ⟨hbounds.1, hbounds.2, hcum⟩

/-- Witness for C1: all-zero coefficients and zero lower bounds with
integer upper bounds 1000000, instantiated at month 0. -/
theorem C1_witness :
    (0 : ℕ) < 12 ∧
      (([(0 : ℝ), 0, 0, 0, 0, 0, 0, 0, 0, 0, 0, 0].getD 0 0 ≤
          ((solveLPHeuristic [(0 : ℝ), 0, 0, 0, 0, 0, 0, 0, 0, 0, 0, 0]
            [(0 : ℝ), 0, 0, 0, 0, 0, 0, 0, 0, 0, 0, 0]
            [(1000000 : ℝ), 1000000, 1000000, 1000000, 1000000, 1000000,
              1000000, 1000000, 1000000, 1000000, 1000000, 1000000]
            true Strat.balanced).1).getD 0 0) ∧
        ((solveLPHeuristic [(0 : ℝ), 0, 0, 0, 0, 0, 0, 0, 0, 0, 0, 0]
            [(0 : ℝ), 0, 0, 0, 0, 0, 0, 0, 0, 0, 0, 0]
            [(1000000 : ℝ), 1000000, 1000000, 1000000, 1000000, 1000000,
              1000000, 1000000, 1000000, 1000000, 1000000, 1000000]
            true Strat.balanced).1).getD 0 0 ≤
          [(1000000 : ℝ), 1000000, 1000000, 1000000, 1000000, 1000000,
            1000000, 1000000, 1000000, 1000000, 1000000, 1000000].getD 0 0 ∧
        (((solveLPHeuristic [(0 : ℝ), 0, 0, 0, 0, 0, 0, 0, 0, 0, 0, 0]
            [(0 : ℝ), 0, 0, 0, 0, 0, 0, 0, 0, 0, 0, 0]
            [(1000000 : ℝ), 1000000, 1000000, 1000000, 1000000, 1000000,
              1000000, 1000000, 1000000, 1000000, 1000000, 1000000]
            true Strat.balanced).1).take 1).sum ≤
          cumCapacity.getD 0 0) :=
  ⟨by norm_num,
    C1_bounds_and_ceiling
      [(0 : ℝ), 0, 0, 0, 0, 0, 0, 0, 0, 0, 0, 0]
      [(0 : ℝ), 0, 0, 0, 0, 0, 0, 0, 0, 0, 0, 0]
      [(1000000 : ℝ), 1000000, 1000000, 1000000, 1000000, 1000000,
        1000000, 1000000, 1000000, 1000000, 1000000, 1000000]
      true Strat.balanced rfl rfl rfl
      (by intro i hi; interval_cases i <;> norm_num)
      (by intro i hi; interval_cases i <;> exact ⟨0, by norm_num⟩)
      (by intro i hi; interval_cases i <;> exact ⟨1000000, by norm_num⟩)
      (by intro i hi; interval_cases i <;>
        norm_num [cumCapPrev, cumCapacity])
      0 (by norm_num)⟩

/-- Counterexample to claim C1 as stated: with the fractional bounds
`lower_i = upper_i = 2800000.3` (which satisfy `lower ≤ upper`) and zero
coefficients, month 0 allocates `round(2800000.3) = 2800000`, which is
below the lower bound 2800000.3 AND already exceeds month 0's cumulative
ceiling 2700000.  So without integrality of the bounds and without the
lower-bound-fits-increment condition, both parts of the claim fail. -/
theorem C1_counterexample :
    (∀ i, i < 12 →
      ([(2800000.3 : ℝ), 2800000.3, 2800000.3, 2800000.3, 2800000.3,
          2800000.3, 2800000.3, 2800000.3, 2800000.3, 2800000.3,
          2800000.3, 2800000.3].getD i 0 ≤
        [(2800000.3 : ℝ), 2800000.3, 2800000.3, 2800000.3, 2800000.3,
          2800000.3, 2800000.3, 2800000.3, 2800000.3, 2800000.3,
          2800000.3, 2800000.3].getD i 0)) ∧
    ¬ (∀ i, i < 12 →
      [(2800000.3 : ℝ), 2800000.3, 2800000.3, 2800000.3, 2800000.3,
          2800000.3, 2800000.3, 2800000.3, 2800000.3, 2800000.3,
          2800000.3, 2800000.3].getD i 0 ≤
        ((solveLPHeuristic [(0 : ℝ), 0, 0, 0, 0, 0, 0, 0, 0, 0, 0, 0]
          [(2800000.3 : ℝ), 2800000.3, 2800000.3, 2800000.3, 2800000.3,
            2800000.3, 2800000.3, 2800000.3, 2800000.3, 2800000.3,
            2800000.3, 2800000.3]
          [(2800000.3 : ℝ), 2800000.3, 2800000.3, 2800000.3, 2800000.3,
            2800000.3, 2800000.3, 2800000.3, 2800000.3, 2800000.3,
            2800000.3, 2800000.3] true Strat.balanced).1).getD i 0 ∧
      ((solveLPHeuristic [(0 : ℝ), 0, 0, 0, 0, 0, 0, 0, 0, 0, 0, 0]
          [(2800000.3 : ℝ), 2800000.3, 2800000.3, 2800000.3, 2800000.3,
            2800000.3, 2800000.3, 2800000.3, 2800000.3, 2800000.3,
            2800000.3, 2800000.3]
          [(2800000.3 : ℝ), 2800000.3, 2800000.3, 2800000.3, 2800000.3,
            2800000.3, 2800000.3, 2800000.3, 2800000.3, 2800000.3,
            2800000.3, 2800000.3] true Strat.balanced).1).getD i 0 ≤
        [(2800000.3 : ℝ), 2800000.3, 2800000.3, 2800000.3, 2800000.3,
          2800000.3, 2800000.3, 2800000.3, 2800000.3, 2800000.3,
          2800000.3, 2800000.3].getD i 0 ∧
      (((solveLPHeuristic [(0 : ℝ), 0, 0, 0, 0, 0, 0, 0, 0, 0, 0, 0]
          [(2800000.3 : ℝ), 2800000.3, 2800000.3, 2800000.3, 2800000.3,
            2800000.3, 2800000.3, 2800000.3, 2800000.3, 2800000.3,
            2800000.3, 2800000.3]
          [(2800000.3 : ℝ), 2800000.3, 2800000.3, 2800000.3, 2800000.3,
            2800000.3, 2800000.3, 2800000.3, 2800000.3, 2800000.3,
            2800000.3, 2800000.3] true Strat.balanced).1).take
        (i + 1)).sum ≤ cumCapacity.getD i 0) := by
  constructor
  · intro i hi
    exact le_rfl
  · have hstep : heurStep Strat.balanced true
        (maxAbsCoeffs [(0 : ℝ), 0, 0, 0, 0, 0, 0, 0, 0, 0, 0, 0])
        0 2800000.3 2800000.3 (some 2700000) 0 = 2800000 := by
      simp only [heurStep, eq_self_iff_true, if_true]
      have hx0 : (2800000.3 : ℝ) + (2800000.3 - 2800000.3) *
          (0.35 + 0.5 * ((0 / maxAbsCoeffs
            [(0 : ℝ), 0, 0, 0, 0, 0, 0, 0, 0, 0, 0, 0] + 1) / 2)) =
          2800000.3 := by ring
      rw [hx0]
      rw [if_pos (show (0 : ℝ) + 2800000.3 > 2700000 by norm_num)]
      rw [show ((2700000 : ℝ) - 0) = 2700000 by norm_num]
      rw [max_eq_left (show (2700000 : ℝ) ≤ 2800000.3 by norm_num)]
      rw [max_self, min_self, jsRound]
      rw [show ⌊(2800000.3 : ℝ) + 1/2⌋ = (2800000 : ℤ) from by
        rw [Int.floor_eq_iff]
        constructor <;> norm_num]
      norm_num
    have hcons : ∃ t, heurRows [(0 : ℝ), 0, 0, 0, 0, 0, 0, 0, 0, 0, 0, 0]
        [(2800000.3 : ℝ), 2800000.3, 2800000.3, 2800000.3, 2800000.3,
          2800000.3, 2800000.3, 2800000.3, 2800000.3, 2800000.3,
          2800000.3, 2800000.3]
        [(2800000.3 : ℝ), 2800000.3, 2800000.3, 2800000.3, 2800000.3,
          2800000.3, 2800000.3, 2800000.3, 2800000.3, 2800000.3,
          2800000.3, 2800000.3] =
        ((0 : ℝ), (2800000.3 : ℝ), (2800000.3 : ℝ),
          some (2700000 : ℝ)) :: t := ⟨_, rfl⟩
    obtain ⟨tail, htail⟩ := hcons
    have ht2 :
        (solveLPHeuristic [(0 : ℝ), 0, 0, 0, 0, 0, 0, 0, 0, 0, 0, 0]
          [(2800000.3 : ℝ), 2800000.3, 2800000.3, 2800000.3, 2800000.3,
            2800000.3, 2800000.3, 2800000.3, 2800000.3, 2800000.3,
            2800000.3, 2800000.3]
          [(2800000.3 : ℝ), 2800000.3, 2800000.3, 2800000.3, 2800000.3,
            2800000.3, 2800000.3, 2800000.3, 2800000.3, 2800000.3,
            2800000.3, 2800000.3] true Strat.balanced).1 =
          (2800000 : ℝ) :: heurAux Strat.balanced true
            (maxAbsCoeffs [(0 : ℝ), 0, 0, 0, 0, 0, 0, 0, 0, 0, 0, 0])
            tail ((0 : ℝ) + 2800000) := by
      simp only [solveLPHeuristic]
      rw [htail]
      simp only [heurAux]
      rw [hstep]
    intro hall
    have h0 := hall 0 (by norm_num)
    rw [ht2] at h0
    simp only [List.getD_cons_zero] at h0
    have hlow := h0.1
    norm_num at hlow

lemma one_le_foldr_max (l : List ℝ) : (1 : ℝ) ≤ l.foldr max 1 := by
  induction l with
  | nil => exact le_rfl
  | cons a t ih => exact le_trans ih (le_max_right a _)

lemma foldr_max_le (l : List ℝ) (b : ℝ) (hb : 1 ≤ b)
    (h : ∀ x ∈ l, x ≤ b) : l.foldr max 1 ≤ b := by
  induction l with
  | nil => simpa using hb
  | cons a t ih =>
    simp only [List.foldr]
    exact max_le (h a (by simp))
      (ih (fun x hx => h x (List.mem_cons_of_mem _ hx)))

lemma le_foldr_max (l : List ℝ) (x : ℝ) (h : x ∈ l) :
    x ≤ l.foldr max 1 := by
  induction l with
  | nil => simp at h
  | cons a t ih =>
    simp only [List.foldr]
    rcases List.mem_cons.mp h with rfl | hx
    · exact le_max_left _ _
    · exact le_trans (ih hx) (le_max_right _ _)

lemma one_le_maxAbsCoeffs (coeffs : List ℝ) : 1 ≤ maxAbsCoeffs coeffs :=
  one_le_foldr_max _

lemma maxAbsCoeffs_pos (coeffs : List ℝ) : 0 < maxAbsCoeffs coeffs :=
  lt_of_lt_of_le one_pos (one_le_maxAbsCoeffs coeffs)

lemma abs_le_maxAbsCoeffs {coeffs : List ℝ} {i : ℕ}
    (h : i < coeffs.length) :
    |coeffs.getD i 0| ≤ maxAbsCoeffs coeffs := by
  rw [maxAbsCoeffs]
  apply le_foldr_max
  rw [List.getD_eq_getElem _ _ h]
  exact List.mem_map.mpr ⟨_, List.getElem_mem h, rfl⟩

lemma rank_nonneg {ma c : ℝ} (hma : 0 < ma) (hc : |c| ≤ ma) :
    0 ≤ (c / ma + 1) / 2 := by
  have h1 : (-1 : ℝ) ≤ c / ma := by
    rw [le_div_iff hma]
    linarith [(abs_le.mp hc).1]
  linarith

lemma rank_le_one {ma c : ℝ} (hma : 0 < ma) (hc : |c| ≤ ma) :
    (c / ma + 1) / 2 ≤ 1 := by
  have h1 : c / ma ≤ 1 := by
    rw [div_le_one hma]
    exact (abs_le.mp hc).2
  linarith

/-- When `cum + ub` is within the month's ceiling, the ceiling clamp
cannot fire and the step equals its unclamped value. -/
lemma heurStep_no_trigger (strat : Strat) {ma c lb ub cap cum : ℝ}
    (hma : 0 < ma) (hc : |c| ≤ ma) (hlu : lb ≤ ub)
    (hcap : cum + ub ≤ cap) :
    heurStep strat true ma c lb ub (some cap) cum =
      heurStepFree strat ma c lb ub := by
  have h0 := rank_nonneg hma hc
  have h1 := rank_le_one hma hc
  cases strat with
  | aggressive =>
    have hfrac1 : pow08 ((c / ma + 1) / 2) ≤ 1 := by
      rw [pow08]
      exact Real.rpow_le_one h0 h1 (by norm_num)
    have hx0 : lb + (ub - lb) * pow08 ((c / ma + 1) / 2) ≤ ub := by
      nlinarith [mul_le_mul_of_nonneg_left hfrac1
        (by linarith : (0 : ℝ) ≤ ub - lb)]
    simp only [heurStep, heurStepFree, eq_self_iff_true, if_true]
    rw [if_neg (not_lt.mpr (by linarith : cum +
      (lb + (ub - lb) * pow08 ((c / ma + 1) / 2)) ≤ cap))]
  | conservative =>
    have hx0 : lb + (ub - lb) * (0.15 : ℝ) ≤ ub := by nlinarith
    simp only [heurStep, heurStepFree, eq_self_iff_true, if_true]
    rw [if_neg (not_lt.mpr (by linarith : cum +
      (lb + (ub - lb) * 0.15) ≤ cap))]
  | balanced =>
    have hfrac1 : (0.35 : ℝ) + 0.5 * ((c / ma + 1) / 2) ≤ 1 := by linarith
    have hx0 : lb + (ub - lb) * (0.35 + 0.5 * ((c / ma + 1) / 2)) ≤ ub := by
      nlinarith [mul_le_mul_of_nonneg_left hfrac1
        (by linarith : (0 : ℝ) ≤ ub - lb)]
    simp only [heurStep, heurStepFree, eq_self_iff_true, if_true]
    rw [if_neg (not_lt.mpr (by linarith : cum +
      (lb + (ub - lb) * (0.35 + 0.5 * ((c / ma + 1) / 2))) ≤ cap))]

lemma heurStepFree_le_ub {strat : Strat} {ma c lb ub : ℝ}
    (hub : IsIntR ub) :
    heurStepFree strat ma c lb ub ≤ ub := by
  simp only [heurStepFree]
  calc jsRound (min ub _) ≤ jsRound ub := jsRound_mono (min_le_left _ _)
    _ = ub := jsRound_int hub

/-- On strictly positive coefficients the aggressive target fraction
dominates the conservative one, so the unclamped aggressive step value is
at least the conservative one. -/
lemma heurStepFree_cons_le_agg {ma c lb ub : ℝ} (hma : 0 < ma)
    (hcpos : 0 < c) (hc : |c| ≤ ma) (hlu : lb ≤ ub) :
    heurStepFree Strat.conservative ma c lb ub ≤
      heurStepFree Strat.aggressive ma c lb ub := by
  have hrankhalf : (1 : ℝ) / 2 < (c / ma + 1) / 2 := by
    have : 0 < c / ma := div_pos hcpos hma
    linarith
  have hrank1 := rank_le_one hma hc
  have hpow : (c / ma + 1) / 2 ≤ pow08 ((c / ma + 1) / 2) := by
    rw [pow08]
    calc (c / ma + 1) / 2 = ((c / ma + 1) / 2) ^ (1 : ℝ) :=
          (Real.rpow_one _).symm
      _ ≤ ((c / ma + 1) / 2) ^ (0.8 : ℝ) :=
          Real.rpow_le_rpow_of_exponent_ge (by linarith) hrank1
            (by norm_num)
  have hfrac : (0.15 : ℝ) ≤ pow08 ((c / ma + 1) / 2) := by linarith
  simp only [heurStepFree]
  apply jsRound_mono
  apply min_le_min le_rfl
  apply max_le_max le_rfl
  nlinarith [mul_le_mul_of_nonneg_left hfrac
    (by linarith : (0 : ℝ) ≤ ub - lb)]

/-- Under `SlackOK` the ceiling never binds, so the loop computes the
per-period unclamped values independently. -/
lemma heurAux_no_trigger (strat : Strat) (ma : ℝ) (hma : 0 < ma) :
    ∀ (rows : List (ℝ × ℝ × ℝ × Option ℝ)) (cum s : ℝ),
      cum ≤ s → SlackOK ma rows s →
      heurAux strat true ma rows cum =
        rows.map (fun r => heurStepFree strat ma r.1 r.2.1 r.2.2.1) := by
  intro rows
  induction rows with
  | nil => intro cum s _ _; rfl
  | cons r rest ih =>
    intro cum s hcs hOK
    obtain ⟨c0, lb0, ub0, cap0?⟩ := r
    cases cap0? with
    | none => exact absurd hOK (by simp [SlackOK])
    | some cap0 =>
      simp only [SlackOK] at hOK
      obtain ⟨hc0, habs0, hlu0, hub0, hcap0, hrest⟩ := hOK
      have hstep := heurStep_no_trigger strat hma habs0 hlu0
        (by linarith : cum + ub0 ≤ cap0)
      simp only [heurAux, List.map_cons]
      rw [hstep]
      congr 1
      apply ih _ (s + ub0) _ hrest
      have := @heurStepFree_le_ub strat ma c0 lb0 ub0 hub0
      linarith

/-- The twelve period rows of a 12-coefficient input, with the literal
cumulative-capacity entries. -/
lemma heurRows_twelve (coeffs lower upper : List ℝ)
    (hc : coeffs.length = 12) :
    heurRows coeffs lower upper =
      [(coeffs.getD 0 0, lower.getD 0 0, upper.getD 0 0,
          some (2700000 : ℝ)),
        (coeffs.getD 1 0, lower.getD 1 0, upper.getD 1 0,
          some (5200000 : ℝ)),
        (coeffs.getD 2 0, lower.getD 2 0, upper.getD 2 0,
          some (7900000 : ℝ)),
        (coeffs.getD 3 0, lower.getD 3 0, upper.getD 3 0,
          some (10700000 : ℝ)),
        (coeffs.getD 4 0, lower.getD 4 0, upper.getD 4 0,
          some (13500000 : ℝ)),
        (coeffs.getD 5 0, lower.getD 5 0, upper.getD 5 0,
          some (16200000 : ℝ)),
        (coeffs.getD 6 0, lower.getD 6 0, upper.getD 6 0,
          some (19000000 : ℝ)),
        (coeffs.getD 7 0, lower.getD 7 0, upper.getD 7 0,
          some (22000000 : ℝ)),
        (coeffs.getD 8 0, lower.getD 8 0, upper.getD 8 0,
          some (24800000 : ℝ)),
        (coeffs.getD 9 0, lower.getD 9 0, upper.getD 9 0,
          some (27800000 : ℝ)),
        (coeffs.getD 10 0, lower.getD 10 0, upper.getD 10 0,
          some (30600000 : ℝ)),
        (coeffs.getD 11 0, lower.getD 11 0, upper.getD 11 0,
          some (32700000 : ℝ))] := by
  rw [heurRows, hc]
  rfl

/-- Claim C3 amended: on a 12-period input with strictly positive
coefficients, ordered integral bounds, and upper bounds whose prefix sums
stay within the cumulative-capacity ceilings (so the ceiling never
binds), the aggressive strategy's objective is at least the conservative
one's (maximize mode).  Without the ceiling-slack condition the claim is
false: see the counterexample, where squeezing by the ceiling makes
aggressive strictly worse. -/
theorem C3_aggressive_ge_conservative (coeffs lower upper : List ℝ)
    (hc : coeffs.length = 12) (hl : lower.length = 12)
    (hu : upper.length = 12)
    (hpos : ∀ i, i < 12 → 0 < coeffs.getD i 0)
    (hlu : ∀ i, i < 12 → lower.getD i 0 ≤ upper.getD i 0)
    (huint : ∀ i, i < 12 → IsIntR (upper.getD i 0))
    (hslack : ∀ i, i < 12 →
      (((List.range (i + 1)).map (fun j => upper.getD j 0)).sum ≤
        cumCapacity.getD i 0)) :
    (solveLPHeuristic coeffs lower upper true Strat.conservative).2 ≤
      (solveLPHeuristic coeffs lower upper true Strat.aggressive).2 := by
  have hsl0 := hslack 0 (by norm_num)
  rw [show List.range 1 = [0] from rfl] at hsl0
  simp only [List.map_cons, List.map_nil, List.sum_cons, List.sum_nil] at hsl0
  rw [show cumCapacity.getD 0 0 = (2700000 : ℝ) from rfl] at hsl0
  have hsl1 := hslack 1 (by norm_num)
  rw [show List.range 2 = [0, 1] from rfl] at hsl1
  simp only [List.map_cons, List.map_nil, List.sum_cons, List.sum_nil] at hsl1
  rw [show cumCapacity.getD 1 0 = (5200000 : ℝ) from rfl] at hsl1
  have hsl2 := hslack 2 (by norm_num)
  rw [show List.range 3 = [0, 1, 2] from rfl] at hsl2
  simp only [List.map_cons, List.map_nil, List.sum_cons, List.sum_nil] at hsl2
  rw [show cumCapacity.getD 2 0 = (7900000 : ℝ) from rfl] at hsl2
  have hsl3 := hslack 3 (by norm_num)
  rw [show List.range 4 = [0, 1, 2, 3] from rfl] at hsl3
  simp only [List.map_cons, List.map_nil, List.sum_cons, List.sum_nil] at hsl3
  rw [show cumCapacity.getD 3 0 = (10700000 : ℝ) from rfl] at hsl3
  have hsl4 := hslack 4 (by norm_num)
  rw [show List.range 5 = [0, 1, 2, 3, 4] from rfl] at hsl4
  simp only [List.map_cons, List.map_nil, List.sum_cons, List.sum_nil] at hsl4
  rw [show cumCapacity.getD 4 0 = (13500000 : ℝ) from rfl] at hsl4
  have hsl5 := hslack 5 (by norm_num)
  rw [show List.range 6 = [0, 1, 2, 3, 4, 5] from rfl] at hsl5
  simp only [List.map_cons, List.map_nil, List.sum_cons, List.sum_nil] at hsl5
  rw [show cumCapacity.getD 5 0 = (16200000 : ℝ) from rfl] at hsl5
  have hsl6 := hslack 6 (by norm_num)
  rw [show List.range 7 = [0, 1, 2, 3, 4, 5, 6] from rfl] at hsl6
  simp only [List.map_cons, List.map_nil, List.sum_cons, List.sum_nil] at hsl6
  rw [show cumCapacity.getD 6 0 = (19000000 : ℝ) from rfl] at hsl6
  have hsl7 := hslack 7 (by norm_num)
  rw [show List.range 8 = [0, 1, 2, 3, 4, 5, 6, 7] from rfl] at hsl7
  simp only [List.map_cons, List.map_nil, List.sum_cons, List.sum_nil] at hsl7
  rw [show cumCapacity.getD 7 0 = (22000000 : ℝ) from rfl] at hsl7
  have hsl8 := hslack 8 (by norm_num)
  rw [show List.range 9 = [0, 1, 2, 3, 4, 5, 6, 7, 8] from rfl] at hsl8
  simp only [List.map_cons, List.map_nil, List.sum_cons, List.sum_nil] at hsl8
  rw [show cumCapacity.getD 8 0 = (24800000 : ℝ) from rfl] at hsl8
  have hsl9 := hslack 9 (by norm_num)
  rw [show List.range 10 = [0, 1, 2, 3, 4, 5, 6, 7, 8, 9] from rfl] at hsl9
  simp only [List.map_cons, List.map_nil, List.sum_cons, List.sum_nil] at hsl9
  rw [show cumCapacity.getD 9 0 = (27800000 : ℝ) from rfl] at hsl9
  have hsl10 := hslack 10 (by norm_num)
  rw [show List.range 11 = [0, 1, 2, 3, 4, 5, 6, 7, 8, 9, 10] from rfl] at hsl10
  simp only [List.map_cons, List.map_nil, List.sum_cons, List.sum_nil] at hsl10
  rw [show cumCapacity.getD 10 0 = (30600000 : ℝ) from rfl] at hsl10
  have hsl11 := hslack 11 (by norm_num)
  rw [show List.range 12 = [0, 1, 2, 3, 4, 5, 6, 7, 8, 9, 10, 11] from rfl] at hsl11
  simp only [List.map_cons, List.map_nil, List.sum_cons, List.sum_nil] at hsl11
  rw [show cumCapacity.getD 11 0 = (32700000 : ℝ) from rfl] at hsl11
  have hexp := heurRows_twelve coeffs lower upper hc
  have hOK : SlackOK (maxAbsCoeffs coeffs) (heurRows coeffs lower upper)
      0 := by
    rw [hexp]
    simp only [SlackOK]
    repeat' apply And.intro
    all_goals
      first
        | exact hpos _ (by norm_num)
        | exact abs_le_maxAbsCoeffs (by rw [hc]; norm_num)
        | exact hlu _ (by norm_num)
        | exact huint _ (by norm_num)
        | exact trivial
        | linarith [hsl0, hsl1, hsl2, hsl3, hsl4, hsl5, hsl6, hsl7, hsl8,
            hsl9, hsl10, hsl11]
  have hconsrun := heurAux_no_trigger Strat.conservative (maxAbsCoeffs coeffs)
    (maxAbsCoeffs_pos coeffs) (heurRows coeffs lower upper) 0 0 le_rfl hOK
  have haggrun := heurAux_no_trigger Strat.aggressive (maxAbsCoeffs coeffs)
    (maxAbsCoeffs_pos coeffs) (heurRows coeffs lower upper) 0 0 le_rfl hOK
  have ht0 : coeffs.getD 0 0 * heurStepFree Strat.conservative
      (maxAbsCoeffs coeffs) (coeffs.getD 0 0) (lower.getD 0 0)
      (upper.getD 0 0) ≤ coeffs.getD 0 0 * heurStepFree Strat.aggressive
      (maxAbsCoeffs coeffs) (coeffs.getD 0 0) (lower.getD 0 0)
      (upper.getD 0 0) :=
    mul_le_mul_of_nonneg_left
      (heurStepFree_cons_le_agg (maxAbsCoeffs_pos coeffs)
        (hpos 0 (by norm_num))
        (abs_le_maxAbsCoeffs (by rw [hc]; norm_num))
        (hlu 0 (by norm_num)))
      (le_of_lt (hpos 0 (by norm_num)))
  have ht1 : coeffs.getD 1 0 * heurStepFree Strat.conservative
      (maxAbsCoeffs coeffs) (coeffs.getD 1 0) (lower.getD 1 0)
      (upper.getD 1 0) ≤ coeffs.getD 1 0 * heurStepFree Strat.aggressive
      (maxAbsCoeffs coeffs) (coeffs.getD 1 0) (lower.getD 1 0)
      (upper.getD 1 0) :=
    mul_le_mul_of_nonneg_left
      (heurStepFree_cons_le_agg (maxAbsCoeffs_pos coeffs)
        (hpos 1 (by norm_num))
        (abs_le_maxAbsCoeffs (by rw [hc]; norm_num))
        (hlu 1 (by norm_num)))
      (le_of_lt (hpos 1 (by norm_num)))
  have ht2 : coeffs.getD 2 0 * heurStepFree Strat.conservative
      (maxAbsCoeffs coeffs) (coeffs.getD 2 0) (lower.getD 2 0)
      (upper.getD 2 0) ≤ coeffs.getD 2 0 * heurStepFree Strat.aggressive
      (maxAbsCoeffs coeffs) (coeffs.getD 2 0) (lower.getD 2 0)
      (upper.getD 2 0) :=
    mul_le_mul_of_nonneg_left
      (heurStepFree_cons_le_agg (maxAbsCoeffs_pos coeffs)
        (hpos 2 (by norm_num))
        (abs_le_maxAbsCoeffs (by rw [hc]; norm_num))
        (hlu 2 (by norm_num)))
      (le_of_lt (hpos 2 (by norm_num)))
  have ht3 : coeffs.getD 3 0 * heurStepFree Strat.conservative
      (maxAbsCoeffs coeffs) (coeffs.getD 3 0) (lower.getD 3 0)
      (upper.getD 3 0) ≤ coeffs.getD 3 0 * heurStepFree Strat.aggressive
      (maxAbsCoeffs coeffs) (coeffs.getD 3 0) (lower.getD 3 0)
      (upper.getD 3 0) :=
    mul_le_mul_of_nonneg_left
      (heurStepFree_cons_le_agg (maxAbsCoeffs_pos coeffs)
        (hpos 3 (by norm_num))
        (abs_le_maxAbsCoeffs (by rw [hc]; norm_num))
        (hlu 3 (by norm_num)))
      (le_of_lt (hpos 3 (by norm_num)))
  have ht4 : coeffs.getD 4 0 * heurStepFree Strat.conservative
      (maxAbsCoeffs coeffs) (coeffs.getD 4 0) (lower.getD 4 0)
      (upper.getD 4 0) ≤ coeffs.getD 4 0 * heurStepFree Strat.aggressive
      (maxAbsCoeffs coeffs) (coeffs.getD 4 0) (lower.getD 4 0)
      (upper.getD 4 0) :=
    mul_le_mul_of_nonneg_left
      (heurStepFree_cons_le_agg (maxAbsCoeffs_pos coeffs)
        (hpos 4 (by norm_num))
        (abs_le_maxAbsCoeffs (by rw [hc]; norm_num))
        (hlu 4 (by norm_num)))
      (le_of_lt (hpos 4 (by norm_num)))
  have ht5 : coeffs.getD 5 0 * heurStepFree Strat.conservative
      (maxAbsCoeffs coeffs) (coeffs.getD 5 0) (lower.getD 5 0)
      (upper.getD 5 0) ≤ coeffs.getD 5 0 * heurStepFree Strat.aggressive
      (maxAbsCoeffs coeffs) (coeffs.getD 5 0) (lower.getD 5 0)
      (upper.getD 5 0) :=
    mul_le_mul_of_nonneg_left
      (heurStepFree_cons_le_agg (maxAbsCoeffs_pos coeffs)
        (hpos 5 (by norm_num))
        (abs_le_maxAbsCoeffs (by rw [hc]; norm_num))
        (hlu 5 (by norm_num)))
      (le_of_lt (hpos 5 (by norm_num)))
  have ht6 : coeffs.getD 6 0 * heurStepFree Strat.conservative
      (maxAbsCoeffs coeffs) (coeffs.getD 6 0) (lower.getD 6 0)
      (upper.getD 6 0) ≤ coeffs.getD 6 0 * heurStepFree Strat.aggressive
      (maxAbsCoeffs coeffs) (coeffs.getD 6 0) (lower.getD 6 0)
      (upper.getD 6 0) :=
    mul_le_mul_of_nonneg_left
      (heurStepFree_cons_le_agg (maxAbsCoeffs_pos coeffs)
        (hpos 6 (by norm_num))
        (abs_le_maxAbsCoeffs (by rw [hc]; norm_num))
        (hlu 6 (by norm_num)))
      (le_of_lt (hpos 6 (by norm_num)))
  have ht7 : coeffs.getD 7 0 * heurStepFree Strat.conservative
      (maxAbsCoeffs coeffs) (coeffs.getD 7 0) (lower.getD 7 0)
      (upper.getD 7 0) ≤ coeffs.getD 7 0 * heurStepFree Strat.aggressive
      (maxAbsCoeffs coeffs) (coeffs.getD 7 0) (lower.getD 7 0)
      (upper.getD 7 0) :=
    mul_le_mul_of_nonneg_left
      (heurStepFree_cons_le_agg (maxAbsCoeffs_pos coeffs)
        (hpos 7 (by norm_num))
        (abs_le_maxAbsCoeffs (by rw [hc]; norm_num))
        (hlu 7 (by norm_num)))
      (le_of_lt (hpos 7 (by norm_num)))
  have ht8 : coeffs.getD 8 0 * heurStepFree Strat.conservative
      (maxAbsCoeffs coeffs) (coeffs.getD 8 0) (lower.getD 8 0)
      (upper.getD 8 0) ≤ coeffs.getD 8 0 * heurStepFree Strat.aggressive
      (maxAbsCoeffs coeffs) (coeffs.getD 8 0) (lower.getD 8 0)
      (upper.getD 8 0) :=
    mul_le_mul_of_nonneg_left
      (heurStepFree_cons_le_agg (maxAbsCoeffs_pos coeffs)
        (hpos 8 (by norm_num))
        (abs_le_maxAbsCoeffs (by rw [hc]; norm_num))
        (hlu 8 (by norm_num)))
      (le_of_lt (hpos 8 (by norm_num)))
  have ht9 : coeffs.getD 9 0 * heurStepFree Strat.conservative
      (maxAbsCoeffs coeffs) (coeffs.getD 9 0) (lower.getD 9 0)
      (upper.getD 9 0) ≤ coeffs.getD 9 0 * heurStepFree Strat.aggressive
      (maxAbsCoeffs coeffs) (coeffs.getD 9 0) (lower.getD 9 0)
      (upper.getD 9 0) :=
    mul_le_mul_of_nonneg_left
      (heurStepFree_cons_le_agg (maxAbsCoeffs_pos coeffs)
        (hpos 9 (by norm_num))
        (abs_le_maxAbsCoeffs (by rw [hc]; norm_num))
        (hlu 9 (by norm_num)))
      (le_of_lt (hpos 9 (by norm_num)))
  have ht10 : coeffs.getD 10 0 * heurStepFree Strat.conservative
      (maxAbsCoeffs coeffs) (coeffs.getD 10 0) (lower.getD 10 0)
      (upper.getD 10 0) ≤ coeffs.getD 10 0 * heurStepFree Strat.aggressive
      (maxAbsCoeffs coeffs) (coeffs.getD 10 0) (lower.getD 10 0)
      (upper.getD 10 0) :=
    mul_le_mul_of_nonneg_left
      (heurStepFree_cons_le_agg (maxAbsCoeffs_pos coeffs)
        (hpos 10 (by norm_num))
        (abs_le_maxAbsCoeffs (by rw [hc]; norm_num))
        (hlu 10 (by norm_num)))
      (le_of_lt (hpos 10 (by norm_num)))
  have ht11 : coeffs.getD 11 0 * heurStepFree Strat.conservative
      (maxAbsCoeffs coeffs) (coeffs.getD 11 0) (lower.getD 11 0)
      (upper.getD 11 0) ≤ coeffs.getD 11 0 * heurStepFree Strat.aggressive
      (maxAbsCoeffs coeffs) (coeffs.getD 11 0) (lower.getD 11 0)
      (upper.getD 11 0) :=
    mul_le_mul_of_nonneg_left
      (heurStepFree_cons_le_agg (maxAbsCoeffs_pos coeffs)
        (hpos 11 (by norm_num))
        (abs_le_maxAbsCoeffs (by rw [hc]; norm_num))
        (hlu 11 (by norm_num)))
      (le_of_lt (hpos 11 (by norm_num)))
  simp only [solveLPHeuristic]
  rw [hconsrun, haggrun, hexp, hc]
  rw [show List.range 12 = [0, 1, 2, 3, 4, 5, 6, 7, 8, 9, 10, 11] from rfl]
  simp only [List.map_cons, List.map_nil, List.getD_cons_zero,
    List.getD_cons_succ, List.sum_cons, List.sum_nil]
  linarith [ht0, ht1, ht2, ht3, ht4, ht5, ht6, ht7, ht8, ht9, ht10, ht11]

/-- A period with `lb = ub = 0` always allocates 0, regardless of
strategy, maximize flag, ceiling and running total. -/
lemma heurStep_zero_bounds (strat : Strat) (maximize : Bool)
    (ma c : ℝ) (cap? : Option ℝ) (cum : ℝ) :
    heurStep strat maximize ma c 0 0 cap? cum = 0 := by
  have hmin : ∀ t : ℝ, min (0 : ℝ) (max 0 t) = 0 :=
    fun t => min_eq_left (le_max_left _ _)
  have hjr : jsRound (0 : ℝ) = 0 := jsRound_int ⟨0, by norm_num⟩
  simp only [heurStep]
  rw [hmin, hjr]

/-- Witness for C3: unit coefficients, zero lower bounds, upper bounds
100000 (well within every cumulative ceiling). -/
theorem C3_witness :
    (0 : ℝ) < 1 ∧
      (solveLPHeuristic [(1 : ℝ), 1, 1, 1, 1, 1, 1, 1, 1, 1, 1, 1]
          [(0 : ℝ), 0, 0, 0, 0, 0, 0, 0, 0, 0, 0, 0]
          [(100000 : ℝ), 100000, 100000, 100000, 100000, 100000, 100000,
            100000, 100000, 100000, 100000, 100000]
          true Strat.conservative).2 ≤
        (solveLPHeuristic [(1 : ℝ), 1, 1, 1, 1, 1, 1, 1, 1, 1, 1, 1]
          [(0 : ℝ), 0, 0, 0, 0, 0, 0, 0, 0, 0, 0, 0]
          [(100000 : ℝ), 100000, 100000, 100000, 100000, 100000, 100000,
            100000, 100000, 100000, 100000, 100000]
          true Strat.aggressive).2 :=
  ⟨by norm_num,
    C3_aggressive_ge_conservative
      [(1 : ℝ), 1, 1, 1, 1, 1, 1, 1, 1, 1, 1, 1]
      [(0 : ℝ), 0, 0, 0, 0, 0, 0, 0, 0, 0, 0, 0]
      [(100000 : ℝ), 100000, 100000, 100000, 100000, 100000, 100000,
        100000, 100000, 100000, 100000, 100000]
      rfl rfl rfl
      (by intro i hi; interval_cases i <;> norm_num)
      (by intro i hi; interval_cases i <;> norm_num)
      (by intro i hi; interval_cases i <;> exact ⟨100000, by norm_num⟩)
      (by
        intro i hi
        interval_cases i <;>
          · simp only [List.range_succ, List.range_zero, List.map_append,
              List.map_cons, List.map_nil, List.sum_append, List.sum_cons,
              List.sum_nil, List.nil_append, List.cons_append]
            norm_num [cumCapacity])⟩

/-- Counterexample to claim C3 as stated: with strictly positive
coefficients `[0.001 ×11, 1]`, zero lower bounds, and upper bounds
`[6000000, 0 ×10, 201000000]`, the aggressive run is squeezed by the
cumulative ceiling (it burns 2700000 units of budget on the cheap month
0 and can then only take 30000000 in the valuable month 11), while the
conservative run saves budget and takes 30150000 in month 11: the
aggressive objective 30002700 is strictly below the conservative
objective 30150900. -/
theorem C3_counterexample :
    (∀ i, i < 12 →
      0 < ([(1/1000 : ℝ), 1/1000, 1/1000, 1/1000, 1/1000, 1/1000, 1/1000, 1/1000,
        1/1000, 1/1000, 1/1000, 1]).getD i 0) ∧
    (∀ i, i < 12 →
      ([(0 : ℝ), 0, 0, 0, 0, 0, 0, 0, 0, 0, 0, 0]).getD i 0 ≤
        ([(6000000 : ℝ), 0, 0, 0, 0, 0, 0, 0, 0, 0, 0, 201000000]).getD i 0) ∧
    (solveLPHeuristic [(1/1000 : ℝ), 1/1000, 1/1000, 1/1000, 1/1000, 1/1000, 1/1000, 1/1000,
        1/1000, 1/1000, 1/1000, 1]
        [(0 : ℝ), 0, 0, 0, 0, 0, 0, 0, 0, 0, 0, 0]
        [(6000000 : ℝ), 0, 0, 0, 0, 0, 0, 0, 0, 0, 0, 201000000]
        true Strat.aggressive).2 <
      (solveLPHeuristic [(1/1000 : ℝ), 1/1000, 1/1000, 1/1000, 1/1000, 1/1000, 1/1000, 1/1000,
        1/1000, 1/1000, 1/1000, 1]
        [(0 : ℝ), 0, 0, 0, 0, 0, 0, 0, 0, 0, 0, 0]
        [(6000000 : ℝ), 0, 0, 0, 0, 0, 0, 0, 0, 0, 0, 201000000]
        true Strat.conservative).2 := by
  refine ⟨?_, ?_, ?_⟩
  · intro i hi
    interval_cases i <;> norm_num
  · intro i hi
    interval_cases i <;> norm_num
  · have hma : maxAbsCoeffs [(1/1000 : ℝ), 1/1000, 1/1000, 1/1000, 1/1000, 1/1000, 1/1000, 1/1000,
        1/1000, 1/1000, 1/1000, 1] = 1 := by
      apply le_antisymm
      · rw [maxAbsCoeffs]
        apply foldr_max_le _ _ le_rfl
        intro x hx
        simp only [List.map_cons, List.map_nil, List.mem_cons,
          List.not_mem_nil, or_false] at hx
        rcases hx with rfl | rfl | rfl | rfl | rfl | rfl | rfl | rfl | rfl | rfl | rfl | rfl <;>
          · rw [abs_le]
            constructor <;> norm_num
      · exact one_le_maxAbsCoeffs _
    have hrows : heurRows [(1/1000 : ℝ), 1/1000, 1/1000, 1/1000, 1/1000, 1/1000, 1/1000, 1/1000,
        1/1000, 1/1000, 1/1000, 1]
        [(0 : ℝ), 0, 0, 0, 0, 0, 0, 0, 0, 0, 0, 0]
        [(6000000 : ℝ), 0, 0, 0, 0, 0, 0, 0, 0, 0, 0, 201000000] =
        [((1/1000 : ℝ), (0 : ℝ), (6000000 : ℝ), some (2700000 : ℝ)),
        ((1/1000 : ℝ), (0 : ℝ), (0 : ℝ), some (5200000 : ℝ)),
        ((1/1000 : ℝ), (0 : ℝ), (0 : ℝ), some (7900000 : ℝ)),
        ((1/1000 : ℝ), (0 : ℝ), (0 : ℝ), some (10700000 : ℝ)),
        ((1/1000 : ℝ), (0 : ℝ), (0 : ℝ), some (13500000 : ℝ)),
        ((1/1000 : ℝ), (0 : ℝ), (0 : ℝ), some (16200000 : ℝ)),
        ((1/1000 : ℝ), (0 : ℝ), (0 : ℝ), some (19000000 : ℝ)),
        ((1/1000 : ℝ), (0 : ℝ), (0 : ℝ), some (22000000 : ℝ)),
        ((1/1000 : ℝ), (0 : ℝ), (0 : ℝ), some (24800000 : ℝ)),
        ((1/1000 : ℝ), (0 : ℝ), (0 : ℝ), some (27800000 : ℝ)),
        ((1/1000 : ℝ), (0 : ℝ), (0 : ℝ), some (30600000 : ℝ)),
        ((1 : ℝ), (0 : ℝ), (201000000 : ℝ), some (32700000 : ℝ))] := by
      rw [heurRows]
      rfl
    have hrk : ((1/1000 : ℝ) / 1 + 1) / 2 = 1001/2000 := by norm_num
    have hpow : (1001/2000 : ℝ) ≤ pow08 (1001/2000) := by
      rw [pow08]
      calc (1001/2000 : ℝ) = (1001/2000 : ℝ) ^ (1 : ℝ) :=
            (Real.rpow_one _).symm
        _ ≤ (1001/2000 : ℝ) ^ (0.8 : ℝ) :=
            Real.rpow_le_rpow_of_exponent_ge (by norm_num) (by norm_num)
              (by norm_num)
    have h0agg : heurStep Strat.aggressive true 1 (1/1000) 0 6000000
        (some 2700000) 0 = 2700000 := by
      simp only [heurStep, eq_self_iff_true, if_true]
      rw [hrk]
      have hprod : (6000000 : ℝ) * (1001/2000) ≤
          6000000 * pow08 (1001/2000) :=
        mul_le_mul_of_nonneg_left hpow (by norm_num)
      rw [if_pos (show (0 : ℝ) +
        (0 + (6000000 - 0) * pow08 (1001/2000)) > 2700000 by nlinarith)]
      rw [show ((2700000 : ℝ) - 0) = 2700000 from by norm_num]
      rw [max_eq_right (show (0 : ℝ) ≤ 2700000 from by norm_num),
        max_eq_right (show (0 : ℝ) ≤ 2700000 from by norm_num)]
      rw [min_eq_right (show (2700000 : ℝ) ≤ 6000000 from by norm_num)]
      exact jsRound_int ⟨2700000, by norm_num⟩
    have h11agg : heurStep Strat.aggressive true 1 1 0 201000000
        (some 32700000) 2700000 = 30000000 := by
      simp only [heurStep, eq_self_iff_true, if_true]
      rw [show ((1 : ℝ) / 1 + 1) / 2 = 1 from by norm_num, pow08,
        Real.one_rpow]
      rw [if_pos (show (2700000 : ℝ) +
        (0 + (201000000 - 0) * 1) > 32700000 by norm_num)]
      rw [show ((32700000 : ℝ) - 2700000) = 30000000 from by norm_num]
      rw [max_eq_right (show (0 : ℝ) ≤ 30000000 from by norm_num),
        max_eq_right (show (0 : ℝ) ≤ 30000000 from by norm_num)]
      rw [min_eq_right (show (30000000 : ℝ) ≤ 201000000 from by norm_num)]
      exact jsRound_int ⟨30000000, by norm_num⟩
    have h0cons : heurStep Strat.conservative true 1 (1/1000) 0 6000000
        (some 2700000) 0 = 900000 := by
      simp only [heurStep, eq_self_iff_true, if_true]
      rw [if_neg (show ¬((0 : ℝ) +
        (0 + (6000000 - 0) * 0.15) > 2700000) from by norm_num)]
      rw [show ((0 : ℝ) + (6000000 - 0) * 0.15) = 900000 from by norm_num]
      rw [max_eq_right (show (0 : ℝ) ≤ 900000 from by norm_num)]
      rw [min_eq_right (show (900000 : ℝ) ≤ 6000000 from by norm_num)]
      exact jsRound_int ⟨900000, by norm_num⟩
    have h11cons : heurStep Strat.conservative true 1 1 0 201000000
        (some 32700000) 900000 = 30150000 := by
      simp only [heurStep, eq_self_iff_true, if_true]
      rw [if_neg (show ¬((900000 : ℝ) +
        (0 + (201000000 - 0) * 0.15) > 32700000) from by norm_num)]
      rw [show ((0 : ℝ) + (201000000 - 0) * 0.15) = 30150000 from by
        norm_num]
      rw [max_eq_right (show (0 : ℝ) ≤ 30150000 from by norm_num)]
      rw [min_eq_right (show (30150000 : ℝ) ≤ 201000000 from by norm_num)]
      exact jsRound_int ⟨30150000, by norm_num⟩
    have hsolagg : heurAux Strat.aggressive true 1
        ([((1/1000 : ℝ), (0 : ℝ), (6000000 : ℝ), some (2700000 : ℝ)),
        ((1/1000 : ℝ), (0 : ℝ), (0 : ℝ), some (5200000 : ℝ)),
        ((1/1000 : ℝ), (0 : ℝ), (0 : ℝ), some (7900000 : ℝ)),
        ((1/1000 : ℝ), (0 : ℝ), (0 : ℝ), some (10700000 : ℝ)),
        ((1/1000 : ℝ), (0 : ℝ), (0 : ℝ), some (13500000 : ℝ)),
        ((1/1000 : ℝ), (0 : ℝ), (0 : ℝ), some (16200000 : ℝ)),
        ((1/1000 : ℝ), (0 : ℝ), (0 : ℝ), some (19000000 : ℝ)),
        ((1/1000 : ℝ), (0 : ℝ), (0 : ℝ), some (22000000 : ℝ)),
        ((1/1000 : ℝ), (0 : ℝ), (0 : ℝ), some (24800000 : ℝ)),
        ((1/1000 : ℝ), (0 : ℝ), (0 : ℝ), some (27800000 : ℝ)),
        ((1/1000 : ℝ), (0 : ℝ), (0 : ℝ), some (30600000 : ℝ)),
        ((1 : ℝ), (0 : ℝ), (201000000 : ℝ), some (32700000 : ℝ))]) 0 =
        [2700000, 0, 0, 0, 0, 0, 0, 0, 0, 0, 0, 30000000] := by
      simp only [heurAux]
      rw [h0agg]
      simp only [heurStep_zero_bounds]
      ring_nf
      rw [h11agg]
    have hsolcons : heurAux Strat.conservative true 1
        ([((1/1000 : ℝ), (0 : ℝ), (6000000 : ℝ), some (2700000 : ℝ)),
        ((1/1000 : ℝ), (0 : ℝ), (0 : ℝ), some (5200000 : ℝ)),
        ((1/1000 : ℝ), (0 : ℝ), (0 : ℝ), some (7900000 : ℝ)),
        ((1/1000 : ℝ), (0 : ℝ), (0 : ℝ), some (10700000 : ℝ)),
        ((1/1000 : ℝ), (0 : ℝ), (0 : ℝ), some (13500000 : ℝ)),
        ((1/1000 : ℝ), (0 : ℝ), (0 : ℝ), some (16200000 : ℝ)),
        ((1/1000 : ℝ), (0 : ℝ), (0 : ℝ), some (19000000 : ℝ)),
        ((1/1000 : ℝ), (0 : ℝ), (0 : ℝ), some (22000000 : ℝ)),
        ((1/1000 : ℝ), (0 : ℝ), (0 : ℝ), some (24800000 : ℝ)),
        ((1/1000 : ℝ), (0 : ℝ), (0 : ℝ), some (27800000 : ℝ)),
        ((1/1000 : ℝ), (0 : ℝ), (0 : ℝ), some (30600000 : ℝ)),
        ((1 : ℝ), (0 : ℝ), (201000000 : ℝ), some (32700000 : ℝ))]) 0 =
        [900000, 0, 0, 0, 0, 0, 0, 0, 0, 0, 0, 30150000] := by
      simp only [heurAux]
      rw [h0cons]
      simp only [heurStep_zero_bounds]
      ring_nf
      rw [h11cons]
    simp only [solveLPHeuristic]
    rw [hma, hrows, hsolagg, hsolcons]
    rw [show List.range (List.length [(1/1000 : ℝ), 1/1000, 1/1000, 1/1000, 1/1000, 1/1000, 1/1000, 1/1000,
        1/1000, 1/1000, 1/1000, 1]) =
      [0, 1, 2, 3, 4, 5, 6, 7, 8, 9, 10, 11] from rfl]
    simp only [List.map_cons, List.map_nil, List.getD_cons_zero,
      List.getD_cons_succ, List.sum_cons, List.sum_nil]
    norm_num

@[simp] lemma jsBin_none_left (f : ℝ → ℝ → ℝ) (b : JSVal) :
    jsBin f none b = none := by cases b <;> rfl

@[simp] lemma jsBin_none_right (f : ℝ → ℝ → ℝ) (a : JSVal) :
    jsBin f a none = none := by cases a <;> rfl

@[simp] lemma jsBin_some_some (f : ℝ → ℝ → ℝ) (a b : ℝ) :
    jsBin f (some a) (some b) = some (f a b) := rfl

/-- Claim C7, behaviour of the code at the failing input: invoked with
12 coefficients but empty bound arrays, the heuristic does NOT fail
fast — it silently returns a solution of 12 `NaN` values and a `NaN`
objective (modelled `none`), the JS result of arithmetic on `undefined`
array reads. -/
theorem C7_length_mismatch_returns_nan :
    (solveLPHeuristicJS [(1 : ℝ), 1, 1, 1, 1, 1, 1, 1, 1, 1, 1, 1]
        [] [] true Strat.balanced).1 =
      [none, none, none, none, none, none, none, none, none, none,
        none, none] ∧
    (solveLPHeuristicJS [(1 : ℝ), 1, 1, 1, 1, 1, 1, 1, 1, 1, 1, 1]
        [] [] true Strat.balanced).2 = none := by
  have hstep : ∀ (c : ℝ) (cap? : Option ℝ) (cum : JSVal),
      heurStepJS Strat.balanced true (maxAbsCoeffs
        [(1 : ℝ), 1, 1, 1, 1, 1, 1, 1, 1, 1, 1, 1]) c none none cap?
        cum = none := by
    intro c cap? cum
    simp only [heurStepJS, jsBin_none_left, jsBin_none_right,
      eq_self_iff_true, if_true]
    cases cap? with
    | none => simp
    | some cap =>
      cases cum with
      | none => simp
      | some q => simp
  constructor
  · simp only [solveLPHeuristicJS]
    rw [show (List.range (List.length
        [(1 : ℝ), 1, 1, 1, 1, 1, 1, 1, 1, 1, 1, 1])).map
        (fun i => ((([(1 : ℝ), 1, 1, 1, 1, 1, 1, 1, 1, 1, 1, 1]).getD i 0),
          (([] : List ℝ).get? i), (([] : List ℝ).get? i),
          (cumCapacity.get? i))) =
        [((1 : ℝ), (none : JSVal), (none : JSVal), some (2700000 : ℝ)),
          (1, none, none, some 5200000), (1, none, none, some 7900000),
          (1, none, none, some 10700000), (1, none, none, some 13500000),
          (1, none, none, some 16200000), (1, none, none, some 19000000),
          (1, none, none, some 22000000), (1, none, none, some 24800000),
          (1, none, none, some 27800000), (1, none, none, some 30600000),
          (1, none, none, some 32700000)] from rfl]
    simp only [heurAuxJS, hstep, jsBin_none_right]
  · simp only [solveLPHeuristicJS]
    rw [show (List.range (List.length
        [(1 : ℝ), 1, 1, 1, 1, 1, 1, 1, 1, 1, 1, 1])).map
        (fun i => ((([(1 : ℝ), 1, 1, 1, 1, 1, 1, 1, 1, 1, 1, 1]).getD i 0),
          (([] : List ℝ).get? i), (([] : List ℝ).get? i),
          (cumCapacity.get? i))) =
        [((1 : ℝ), (none : JSVal), (none : JSVal), some (2700000 : ℝ)),
          (1, none, none, some 5200000), (1, none, none, some 7900000),
          (1, none, none, some 10700000), (1, none, none, some 13500000),
          (1, none, none, some 16200000), (1, none, none, some 19000000),
          (1, none, none, some 22000000), (1, none, none, some 24800000),
          (1, none, none, some 27800000), (1, none, none, some 30600000),
          (1, none, none, some 32700000)] from rfl]
    simp only [heurAuxJS, hstep, jsBin_none_right]
    rw [show List.range (List.length
        [(1 : ℝ), 1, 1, 1, 1, 1, 1, 1, 1, 1, 1, 1]) =
        [0, 1, 2, 3, 4, 5, 6, 7, 8, 9, 10, 11] from rfl]
    simp
